import Mathlib

/-!
Verification of the habit-tracker screen-navigation state machine.

This file gives a shallow embedding, in Lean 4, of the screen/input/frame-loop
core of the habit-tracker application, translated from the Python source:

  * `input/input_base.py`      : the input event vocabulary
  * `game/text_input.py`       : the text input widget
  * `game/speech_bubble.py`    : the speech bubble widget
  * `game/screens.py`          : Home, Menu, Habits, Stats, Settings screens
  * `game/settings_screen.py`  : the settings menu screen
  * `game/habit_form_screen.py`: the habit form screen
  * `game/view_habits_screen.py`, `game/edit_habit_screen.py`,
    `game/habit_checker_screen.py`, `game/popup_screen.py`,
    `game/update_screen.py`, `game/about_screen.py`
  * `data/db.py`               : the habits table and habit-log CRUD operations
  * `game/app.py`              : the application frame loop and screen registry
  * `main.py`, `config.py`     : registry construction and configuration

Conventions of the embedding:
  * Wall-clock durations and timers are rationals (`Rat`), in seconds, as the
    source measures them with `time.time()`.
  * Python `int` selection indices are `Int`; Python `x % n` for `n > 0` agrees
    with Lean `Int.emod`, so `%` translates verbatim.
  * Python list indexing, which can raise `IndexError`, is translated with
    `pyGet?` (negative indices wrap once, as in Python); functions that index
    fallibly are `Option`-valued and their totality is proved, not assumed.
  * External effects (SQLite, the pixel buffer, `datetime.now`, subprocess
    calls of the self-update screen) are made explicit: the database is a
    value threaded through the handlers, the current 3-day date window of the
    habit checker is a field of the application state, and the git-check
    outcome of the update screen is an input recorded in its state.
-/

namespace HabitTracker

/-! ## Input event vocabulary (`input/input_base.py`) -/

/-- `InputType` from `input/input_base.py`: four joystick directions, three
buttons, and the quit signal. -/
inductive InputType where
  | up
  | down
  | left
  | right
  | buttonA
  | buttonB
  | buttonC
  | quit
deriving DecidableEq, Repr

/-- `InputEvent` from `input/input_base.py`: one edge-triggered event. -/
structure InputEvent where
  input_type : InputType
  pressed : Bool
deriving DecidableEq, Repr

/-! ## Python-style list access helpers -/

/-- Python list indexing `xs[i]`: a negative index wraps once from the end;
out-of-range access raises, modelled by `none`. -/
def pyGet? {α : Type} (xs : List α) (i : Int) : Option α :=
  if 0 ≤ i then xs.get? i.toNat
  else if 0 ≤ (xs.length : Int) + i then xs.get? ((xs.length : Int) + i).toNat
  else none

/-- Python list element assignment `xs[i] = v` (for indices known in range). -/
def pySet {α : Type} (xs : List α) (i : Int) (v : α) : List α :=
  if 0 ≤ i then xs.set i.toNat v
  else xs.set ((xs.length : Int) + i).toNat v

/-! ## Text input widget (`game/text_input.py`) -/

/-- The character set `TextInputWidget.CHARSET`; 26 + 26 + 1 + 10 + 3 = 66
characters. -/
def CHARSET : String :=
  "ABCDEFGHIJKLMNOPQRSTUVWXYZabcdefghijklmnopqrstuvwxyz 0123456789._-"

/-- The section start indices `SECTION_*_START` of `TextInputWidget`. -/
def sectionStarts : List Int := [0, 26, 52, 53, 63]

/-- `TextInputWidget._get_next_section_start`: the first section start strictly
above the current index, wrapping to the first section. -/
def next_section_start (i : Int) : Int :=
  match sectionStarts.find? (fun s => decide (i < s)) with
  | some s => s
  | none => 0

/-- `TextInputWidget._get_prev_section_start`: Python scans all sections and
remembers the last one whose start is `≤` the current index, then steps back
one section cyclically. -/
def prev_section_start (i : Int) : Int :=
  let currentSection := (List.range sectionStarts.length).foldl
    (fun acc j => if sectionStarts.getD j 0 ≤ i then j else acc) 0
  let prev := ((currentSection : Int) - 1) % (sectionStarts.length : Int)
  sectionStarts.getD prev.toNat 0

/-- Mutable state of `TextInputWidget` (`game/text_input.py`). -/
structure TextInput where
  max_length : Nat
  value : String
  current_char_index : Int
  active : Bool
  cursor_blink_timer : Rat
  show_cursor : Bool
deriving DecidableEq, Repr

namespace TextInput

/-- A freshly constructed `TextInputWidget(max_length)`. -/
def init (maxLength : Nat) : TextInput :=
  { max_length := maxLength
    value := ""
    current_char_index := 0
    active := false
    cursor_blink_timer := 0
    show_cursor := true }

/-- `TextInputWidget.activate`. -/
def activate (s : TextInput) : TextInput :=
  { s with active := true, value := "", current_char_index := 0 }

/-- `TextInputWidget.deactivate`. -/
def deactivate (s : TextInput) : TextInput :=
  { s with active := false }

/-- `TextInputWidget.get_current_char`: `CHARSET[current_char_index]`. -/
def get_current_char (s : TextInput) : Char :=
  (pyGet? CHARSET.toList s.current_char_index).getD ' '

/-- `TextInputWidget.handle_input`: returns the new widget state and
`Some value` exactly when BUTTON_C saves. -/
def handle_input (s : TextInput) (ev : InputEvent) : TextInput × Option String :=
  if !s.active || !ev.pressed then (s, none)
  else
    match ev.input_type with
    | .right =>
        ({ s with current_char_index :=
            (s.current_char_index + 1) % (CHARSET.length : Int) }, none)
    | .left =>
        ({ s with current_char_index :=
            (s.current_char_index - 1) % (CHARSET.length : Int) }, none)
    | .down =>
        ({ s with current_char_index := next_section_start s.current_char_index }, none)
    | .up =>
        ({ s with current_char_index := prev_section_start s.current_char_index }, none)
    | .buttonA =>
        if s.value.length < s.max_length then
          ({ s with value := s.value.push s.get_current_char }, none)
        else (s, none)
    | .buttonB =>
        if s.value ≠ "" then
          ({ s with value := (s.value.toList.dropLast).asString }, none)
        else (s, none)
    | .buttonC =>
        ({ s with active := false }, some s.value)
    | .quit => (s, none)

/-- `TextInputWidget.update`: cursor blinks every 0.5 seconds while active. -/
def update (delta_time : Rat) (s : TextInput) : TextInput :=
  if !s.active then s
  else
    let t := s.cursor_blink_timer + delta_time
    if 1/2 ≤ t then
      { s with show_cursor := !s.show_cursor, cursor_blink_timer := 0 }
    else
      { s with cursor_blink_timer := t }

end TextInput

/-! ## Speech bubble widget (`game/speech_bubble.py`) -/

/-- The `state` string of `SpeechBubbleWidget`. -/
inductive BubbleMode where
  | hidden
  | animatingIn
  | showing
  | animatingOut
deriving DecidableEq, Repr

/-- Mutable state of `SpeechBubbleWidget`. -/
structure SpeechBubble where
  mode : BubbleMode
  current_frame : Int
  frame_timer : Rat
  text : String
  scroll_offset : Int
  scroll_timer : Rat
deriving DecidableEq, Repr

namespace SpeechBubble

/-- A freshly constructed `SpeechBubbleWidget()`. -/
def init : SpeechBubble :=
  { mode := .hidden
    current_frame := 0
    frame_timer := 0
    text := ""
    scroll_offset := 0
    scroll_timer := 0 }

/-- `SpeechBubbleWidget.show` (named `show_bubble` here: `show` is a Lean keyword). -/
def show_bubble (text : String) (s : SpeechBubble) : SpeechBubble :=
  if s.mode = .hidden then
    { s with text := text, mode := .animatingIn, current_frame := 4,
             frame_timer := 0, scroll_offset := 0, scroll_timer := 0 }
  else s

/-- `SpeechBubbleWidget.hide`. -/
def hide (s : SpeechBubble) : SpeechBubble :=
  if s.mode = .showing then
    { s with mode := .animatingOut, current_frame := 0, frame_timer := 0 }
  else s

/-- `SpeechBubbleWidget.toggle`. -/
def toggle (text : String) (s : SpeechBubble) : SpeechBubble :=
  if s.mode = .hidden then s.show_bubble text
  else if s.mode = .showing then s.hide
  else s

/-- `SpeechBubbleWidget._should_scroll`: rough width estimate of 5 px per
character against `TEXT_MAX_WIDTH = 82`. -/
def should_scroll (s : SpeechBubble) : Bool :=
  decide ((s.text.length : Int) * 5 > 82)

/-- `SpeechBubbleWidget.update` with
`Config.SPEECH_BUBBLE_FRAME_DELAY = 0.1` and `scroll_delay = 0.15`. -/
def update (delta_time : Rat) (s : SpeechBubble) : SpeechBubble :=
  match s.mode with
  | .animatingIn =>
      let t := s.frame_timer + delta_time
      if 1/10 ≤ t then
        let f := s.current_frame - 1
        if f < 0 then
          { s with frame_timer := 0, current_frame := f, mode := .showing }
        else
          { s with frame_timer := 0, current_frame := f }
      else { s with frame_timer := t }
  | .animatingOut =>
      let t := s.frame_timer + delta_time
      if 1/10 ≤ t then
        let f := s.current_frame + 1
        if 5 ≤ f then
          { s with frame_timer := 0, current_frame := f, mode := .hidden }
        else
          { s with frame_timer := 0, current_frame := f }
      else { s with frame_timer := t }
  | .showing =>
      if s.should_scroll then
        let t := s.scroll_timer + delta_time
        if 3/20 ≤ t then
          { s with scroll_timer := 0,
                   scroll_offset := (s.scroll_offset + 1) % ((s.text.length : Int) + 3) }
        else { s with scroll_timer := t }
      else s
  | .hidden => s

end SpeechBubble

/-! ## Home screen (`game/screens.py`, `HomeScreen`) -/

/-- Mutable state of `HomeScreen`. The loaded sprite images are render-only
resources and carry no information, so they are not part of the state; the
face animation table has the five keys of `Config.FACE_ANIM_SPRITES`. -/
structure HomeState where
  current_frame : Int
  frame_timer : Rat
  current_face_index : Int
  speech_bubble : SpeechBubble
deriving DecidableEq, Repr

namespace HomeState

/-- Number of entries of `Config.FACE_ANIM_SPRITES` (`face_names`). -/
def faceCount : Int := 5

/-- A freshly constructed `HomeScreen()`. -/
def init : HomeState :=
  { current_frame := 0
    frame_timer := 0
    current_face_index := 0
    speech_bubble := SpeechBubble.init }

/-- `HomeScreen.handle_input`. -/
def handle_input (s : HomeState) (ev : InputEvent) : HomeState × Option String :=
  if !ev.pressed then (s, none)
  else
    match ev.input_type with
    | .buttonB => ({ s with speech_bubble := s.speech_bubble.toggle "Hello World" }, none)
    | .buttonC => ({ s with current_face_index := (s.current_face_index + 1) % faceCount }, none)
    | .right => (s, some "menu")
    | .left => (s, some "stats")
    | _ => (s, none)

/-- `HomeScreen.update` with `Config.ANIM_FRAME_DELAY = 0.15`; advances the
4-frame body/face animation and the speech bubble. -/
def update (delta_time : Rat) (s : HomeState) : HomeState :=
  let t := s.frame_timer + delta_time
  let s :=
    if 3/20 ≤ t then
      { s with frame_timer := 0, current_frame := (s.current_frame + 1) % 4 }
    else
      { s with frame_timer := t }
  { s with speech_bubble := s.speech_bubble.update delta_time }

end HomeState

/-! ## Menu screen (`game/screens.py`, `MenuScreen`) -/

/-- Mutable state of `MenuScreen`. -/
structure MenuState where
  selected_index : Int
deriving DecidableEq, Repr

namespace MenuState

/-- The lower-cased first components of `MenuScreen.menu_items`. -/
def itemNames : List String := ["home", "habits", "stats", "settings"]

/-- A freshly constructed `MenuScreen()`. -/
def init : MenuState := { selected_index := 0 }

/-- `MenuScreen.handle_input`. An out-of-range `selected_index` would raise
`IndexError` in Python on BUTTON_A; such states are unreachable
(`selected_index` stays in `[0, 4)`) and are mapped to a no-op here. -/
def handle_input (s : MenuState) (ev : InputEvent) : MenuState × Option String :=
  if !ev.pressed then (s, none)
  else
    match ev.input_type with
    | .up => ({ s with selected_index := (s.selected_index - 1) % 4 }, none)
    | .down => ({ s with selected_index := (s.selected_index + 1) % 4 }, none)
    | .buttonA =>
        match pyGet? itemNames s.selected_index with
        | some selectedName =>
            if selectedName = "habits" then (s, some "habit_checker")
            else (s, some selectedName)
        | none => (s, none)
    | .left => (s, some "home")
    | _ => (s, none)

/-- `MenuScreen.update` is `pass`. -/
def update (_ : Rat) (s : MenuState) : MenuState := s

end MenuState

/-! ## Legacy habits screen (`game/screens.py`, `HabitsScreen`) -/

/-- Mutable state of `HabitsScreen`: the completion flags of the four
hard-coded demo habits, plus the selection cursor. `menu_items` is the habit
list with an extra "+ Add Habit" entry appended. -/
structure HabitsState where
  habits_completed : List Bool
  selected_index : Int
deriving DecidableEq, Repr

namespace HabitsState

/-- A freshly constructed `HabitsScreen()` (Gym, Meditate, Water 8x, Read 1hr;
only "Water 8x" starts completed). -/
def init : HabitsState :=
  { habits_completed := [false, false, true, false], selected_index := 0 }

/-- `menu_items` as the per-item `is_add_button` flag: the habits followed by
the add button. -/
def menu_items (s : HabitsState) : List Bool :=
  s.habits_completed.map (fun _ => false) ++ [true]

/-- `HabitsScreen.handle_input`. -/
def handle_input (s : HabitsState) (ev : InputEvent) : HabitsState × Option String :=
  if !ev.pressed then (s, none)
  else
    let n : Int := (s.menu_items.length : Int)
    match ev.input_type with
    | .up => ({ s with selected_index := (s.selected_index - 1) % n }, none)
    | .down => ({ s with selected_index := (s.selected_index + 1) % n }, none)
    | .buttonA =>
        match pyGet? s.menu_items s.selected_index with
        | some true => (s, some "habit_form")
        | some false =>
            let old := (pyGet? s.habits_completed s.selected_index).getD false
            ({ s with habits_completed := pySet s.habits_completed s.selected_index (!old) }, none)
        | none => (s, none)
    | .buttonB =>
        match pyGet? s.menu_items s.selected_index with
        | some false => (s, some "habit_form_edit")
        | _ => (s, none)
    | .left => (s, some "menu")
    | .right => (s, some "home")
    | _ => (s, none)

/-- `HabitsScreen.update` is `pass`. -/
def update (_ : Rat) (s : HabitsState) : HabitsState := s

end HabitsState

/-! ## Stats screen (`game/screens.py`, `StatsScreen`) -/

/-- Mutable state of `StatsScreen`. The 7-day points/completion aggregates are
read from the database once at construction and only rendered, so they are
kept as opaque display numbers. -/
structure StatsState where
  hunger : Int
  happiness : Int
  total_points : Int
  completion_rate : Rat
deriving DecidableEq, Repr

namespace StatsState

/-- `StatsScreen.handle_input`: any of the three buttons cycles the demo
progress bars; LEFT and RIGHT navigate. -/
def handle_input (s : StatsState) (ev : InputEvent) : StatsState × Option String :=
  if !ev.pressed then (s, none)
  else
    match ev.input_type with
    | .buttonA | .buttonB | .buttonC =>
        ({ s with hunger := (s.hunger + 10) % 110,
                  happiness := (s.happiness + 15) % 110 }, none)
    | .left => (s, some "home")
    | .right => (s, some "menu")
    | _ => (s, none)

/-- `StatsScreen.update` is `pass`. -/
def update (_ : Rat) (s : StatsState) : StatsState := s

end StatsState

/-! ## Settings screen (`game/settings_screen.py`, `SettingsScreen`)

This is the class registered under "settings" in `main.py` (the placeholder
`SettingsScreen` in `game/screens.py` is not registered). -/

/-- Mutable state of `SettingsScreen`. -/
structure SettingsState where
  selected_index : Int
deriving DecidableEq, Repr

namespace SettingsState

/-- `SettingsScreen.MENU_ITEMS`. -/
def MENU_ITEMS : List String := ["Habits", "Update", "About"]

/-- A freshly constructed `SettingsScreen()`. -/
def init : SettingsState := { selected_index := 0 }

/-- `SettingsScreen.handle_input`: UP/DOWN clamp the cursor with `max`/`min`
(no wraparound), BUTTON_A selects, LEFT goes back to the stats carousel. -/
def handle_input (s : SettingsState) (ev : InputEvent) : SettingsState × Option String :=
  if !ev.pressed then (s, none)
  else
    match ev.input_type with
    | .up => ({ s with selected_index := max 0 (s.selected_index - 1) }, none)
    | .down =>
        ({ s with selected_index := min ((MENU_ITEMS.length : Int) - 1) (s.selected_index + 1) }, none)
    | .buttonA =>
        match pyGet? MENU_ITEMS s.selected_index with
        | some item =>
            if item = "Habits" then (s, some "view_habits")
            else if item = "Update" then (s, some "update")
            else if item = "About" then (s, some "about")
            else (s, none)
        | none => (s, none)
    | .left => (s, some "stats")
    | _ => (s, none)

/-- `SettingsScreen.update` is `pass`. -/
def update (_ : Rat) (s : SettingsState) : SettingsState := s

end SettingsState

/-! ## Persistence collaborator (`data/db.py`) -/

/-- One row of the `habits` table, with the columns the screens consume. -/
structure DbHabit where
  id : Nat
  name : String
  habit_type : String
  points_per : Int
  category : String
  recurrence : String
  active : Bool
deriving DecidableEq, Repr

/-- One row of the `habit_logs` table (upserted by `log_habit_completion`,
keyed by habit id and ISO date). -/
structure LogRec where
  habit_id : Nat
  date : String
  completed : Bool
  skipped : Bool
  quantity : Int
  points_earned : Int
deriving DecidableEq, Repr

/-- The SQLite store of `data/db.py`: habit rows in `created_at` (insertion)
order, log rows, and the autoincrement counter that yields `lastrowid`. -/
structure Db where
  habits : List DbHabit
  logs : List LogRec
  next_id : Nat
deriving DecidableEq, Repr

namespace Db

/-- `Database.get_all_habits(active_only=...)` (ordered by `created_at`,
which is insertion order here). -/
def get_all_habits (db : Db) (active_only : Bool) : List DbHabit :=
  if active_only then db.habits.filter (fun h => h.active) else db.habits

/-- `Database.get_habit_by_id`. -/
def get_habit_by_id (db : Db) (habitId : Nat) : Option DbHabit :=
  db.habits.find? (fun h => h.id = habitId)

/-- `Database.add_habit`: inserts a row (`active` defaults to 1) and returns
the new row id. -/
def add_habit (db : Db) (name : String) (habitType : String) (pointsPer : Int)
    (category : String) (recurrence : String) : Db × Nat :=
  let habit : DbHabit :=
    { id := db.next_id
      name := name
      habit_type := habitType
      points_per := pointsPer
      category := category
      recurrence := recurrence
      active := true }
  ({ db with habits := db.habits ++ [habit], next_id := db.next_id + 1 }, db.next_id)

/-- `Database.update_habit`: overwrites the columns of the row with the
given id. -/
def update_habit (db : Db) (habitId : Nat) (name : String) (habitType : String)
    (pointsPer : Int) (category : String) (recurrence : String) (active : Bool) : Db :=
  { db with habits := db.habits.map (fun h =>
      if h.id = habitId then
        { h with name := name, habit_type := habitType, points_per := pointsPer,
                 category := category, recurrence := recurrence, active := active }
      else h) }

/-- `Database.delete_habit`: removes the habit row and its logs. -/
def delete_habit (db : Db) (habitId : Nat) : Db :=
  { db with
      habits := db.habits.filter (fun h => h.id ≠ habitId)
      logs := db.logs.filter (fun l => l.habit_id ≠ habitId) }

/-- `Database.log_habit_completion`: idempotent upsert keyed by
(habit id, date). -/
def log_habit_completion (db : Db) (habitId : Nat) (date : String)
    (completed : Bool) (skipped : Bool) (quantity : Int) (pointsEarned : Int) : Db :=
  let rec_ : LogRec :=
    { habit_id := habitId, date := date, completed := completed,
      skipped := skipped, quantity := quantity, points_earned := pointsEarned }
  if db.logs.any (fun l => l.habit_id = habitId ∧ l.date = date) then
    { db with logs := db.logs.map (fun l =>
        if l.habit_id = habitId ∧ l.date = date then rec_ else l) }
  else
    { db with logs := db.logs ++ [rec_] }

/-- `Database.get_habit_logs(habit_id, start_date, end_date)`: the logs of one
habit inside an inclusive ISO-date range (ISO strings compare like dates). -/
def get_habit_logs (db : Db) (habitId : Nat) (startDate endDate : String) : List LogRec :=
  db.logs.filter (fun l => l.habit_id = habitId ∧ startDate ≤ l.date ∧ l.date ≤ endDate)

end Db

/-! ## View-habits screen (`game/view_habits_screen.py`) -/

/-- The screen-format habit dictionary built by
`ViewHabitsScreen._load_habits` — exactly the keys written there, which make
up the handoff payload `ViewHabitsScreen.selected_habit_data`. -/
structure Habit where
  id : Nat
  name : String
  points : Int
  freq_num : Int
  freq_period : String
  active : Bool
  reminder : Bool
deriving DecidableEq, Repr

/-- `ViewHabitsScreen._load_habits`: converts database rows (all habits,
active or not) to the screen format, parsing `recurrence` of the form
`"num/period"` and falling back to 1/day. The `reminder` field is the
hard-coded `False` of the source. -/
def load_habits_from_db (db : Db) : List Habit :=
  (db.get_all_habits false).map (fun h =>
    let parts := h.recurrence.splitOn "/"
    let freqNum : Int :=
      if parts.length > 1 then ((parts.getD 0 "").toInt?).getD 0 else 1
    let freqPeriod : String :=
      if parts.length > 1 then parts.getD 1 "" else "day"
    { id := h.id
      name := h.name
      points := h.points_per
      freq_num := freqNum
      freq_period := freqPeriod
      active := h.active
      reminder := false })

/-- Mutable state of `ViewHabitsScreen`. `selected_index = -1` selects the
NEW HABIT button; `0 ≤ selected_index` selects a habit row. -/
structure ViewState where
  habits : List Habit
  selected_index : Int
  scroll_offset : Int
  scroll_timer : Rat
  show_delete_popup : Bool
  popup_selected_button : Int
deriving DecidableEq, Repr

/-- Output of one `ViewHabitsScreen.handle_input` call: the new screen state,
the possibly changed database, the write (if any) to the class variable
`ViewHabitsScreen.selected_habit_data` (the cross-screen handoff slot; the
written value `none` means "create new"), and the transition result. -/
structure ViewOut where
  state : ViewState
  db : Db
  handoff_write : Option (Option Habit)
  result : Option String
deriving Repr

namespace ViewState

/-- A freshly constructed `ViewHabitsScreen(db)`. -/
def init (db : Db) : ViewState :=
  { habits := load_habits_from_db db
    selected_index := -1
    scroll_offset := 0
    scroll_timer := 0
    show_delete_popup := false
    popup_selected_button := 0 }

/-- `ViewHabitsScreen.reload_habits` (the reload hook invoked by the
application when a transition lands on "view_habits"). -/
def reload_habits (db : Db) (s : ViewState) : ViewState :=
  let habits := load_habits_from_db db
  let s := { s with habits := habits }
  if (habits.length : Int) ≤ s.selected_index then
    { s with selected_index := -1 }
  else s

/-- `ViewHabitsScreen.handle_input`. -/
def handle_input (s : ViewState) (db : Db) (ev : InputEvent) : ViewOut :=
  if !ev.pressed then ⟨s, db, none, none⟩
  else if s.show_delete_popup then
    -- popup mode
    match ev.input_type with
    | .left => ⟨{ s with popup_selected_button := 0 }, db, none, none⟩
    | .right => ⟨{ s with popup_selected_button := 1 }, db, none, none⟩
    | .buttonA =>
        let sdb :=
          if s.popup_selected_button = 0 then
            if 0 ≤ s.selected_index ∧ s.selected_index < (s.habits.length : Int) then
              match pyGet? s.habits s.selected_index with
              | some habit =>
                  let db := db.delete_habit habit.id
                  let habits := load_habits_from_db db
                  let s := { s with habits := habits }
                  let s :=
                    if (habits.length : Int) ≤ s.selected_index then
                      { s with selected_index := (habits.length : Int) - 1 }
                    else s
                  (s, db)
              | none => (s, db)
            else (s, db)
          else (s, db)
        ⟨{ sdb.1 with show_delete_popup := false, popup_selected_button := 0 }, sdb.2, none, none⟩
    | .buttonB =>
        ⟨{ s with show_delete_popup := false, popup_selected_button := 0 }, db, none, none⟩
    | _ => ⟨s, db, none, none⟩
  else
    -- normal navigation mode
    match ev.input_type with
    | .up =>
        let i := s.selected_index - 1
        let i := if i < -1 then (s.habits.length : Int) - 1 else i
        ⟨{ s with selected_index := i }, db, none, none⟩
    | .down =>
        let i := s.selected_index + 1
        let i := if (s.habits.length : Int) ≤ i then -1 else i
        ⟨{ s with selected_index := i }, db, none, none⟩
    | .buttonA =>
        if s.selected_index = -1 then
          ⟨s, db, some none, some "edit_habit"⟩
        else
          match pyGet? s.habits s.selected_index with
          | some habit => ⟨s, db, some (some habit), some "edit_habit"⟩
          | none => ⟨s, db, none, none⟩
    | .buttonC =>
        if 0 ≤ s.selected_index then
          ⟨{ s with show_delete_popup := true, popup_selected_button := 0 }, db, none, none⟩
        else ⟨s, db, none, none⟩
    | .left => ⟨s, db, none, some "menu"⟩
    | _ => ⟨s, db, none, none⟩

/-- `ViewHabitsScreen.update` with `scroll_delay = 0.15` and a display limit
of 8 characters: scrolls the selected long habit name. `Option`-valued at the
single list access (which its guard protects). -/
def update? (delta_time : Rat) (s : ViewState) : Option ViewState :=
  if 0 ≤ s.selected_index ∧ s.selected_index < (s.habits.length : Int) then
    match pyGet? s.habits s.selected_index with
    | some habit =>
        if 8 < habit.name.length then
          let t := s.scroll_timer + delta_time
          if 3/20 ≤ t then
            some { s with scroll_timer := 0,
                          scroll_offset := (s.scroll_offset + 1) % ((habit.name.length : Int) + 1) }
          else some { s with scroll_timer := t }
        else
          some { s with scroll_offset := 0, scroll_timer := 0 }
    | none => none
  else
    some { s with scroll_offset := 0, scroll_timer := 0 }

/-- Total wrapper of `update?` (the guard makes the fallible access succeed;
`update?_isSome` below proves the default branch is dead). -/
def update (delta_time : Rat) (s : ViewState) : ViewState :=
  (s.update? delta_time).getD s

end ViewState

/-! ## Edit-habit screen (`game/edit_habit_screen.py`) -/

/-- Python string slice `s[start:stop]` for `0 ≤ start` (the only uses here
have non-negative bounds). -/
def strSlice (s : String) (start stop : Int) : String :=
  ((s.toList.drop start.toNat).take (stop - start).toNat).asString

/-- The value of `EditHabitScreen.selected_button`
(`None`, `"save"` or `"cancel"`). -/
inductive EditButton where
  | save
  | cancel
deriving DecidableEq, Repr

/-- Mutable state of `EditHabitScreen`. -/
structure EditState where
  habit_id : Option Nat
  text_input : TextInput
  name : String
  freq_number : Int
  freq_period : String
  points : Int
  is_good : Bool
  active : Bool
  reminder : Bool
  selected_field : Int
  editing_name : Bool
  editing_freq : Bool
  freq_edit_stage : Int
  editing_points : Bool
  selected_button : Option EditButton
  scroll_offset : Int
  scroll_timer : Rat
deriving DecidableEq, Repr

/-- Output of one `EditHabitScreen.handle_input` call. -/
structure EditOut where
  state : EditState
  db : Db
  result : Option String
deriving Repr

namespace EditState

/-- `EditHabitScreen.FIELD_NAMES` has six entries
(Name, Freq, Points, Type, Active, Reminder). -/
def fieldCount : Int := 6

/-- `EditHabitScreen.FREQ_PERIODS`. -/
def FREQ_PERIODS : List String := ["day", "week"]

/-- A freshly constructed `EditHabitScreen(db)` as registered in `main.py`
(`habit_data=None`, so the default new-habit field values). -/
def init : EditState :=
  { habit_id := none
    text_input := TextInput.init 20
    name := ""
    freq_number := 1
    freq_period := "day"
    points := 5
    is_good := true
    active := true
    reminder := false
    selected_field := 0
    editing_name := false
    editing_freq := false
    freq_edit_stage := 0
    editing_points := false
    selected_button := none
    scroll_offset := 0
    scroll_timer := 0 }

/-- `EditHabitScreen.load_habit_data`, the reload hook invoked when a
transition lands on "edit_habit". The payload dictionary written by the
view-habits screen has keys id/name/points/freq_num/freq_period/active/
reminder, so the `get("freq_num", ...)` chain hits `freq_num` and the
`get("is_good", True)` lookup always falls back to `True`. -/
def load_habit_data (habit_data : Option Habit) (s : EditState) : EditState :=
  let s :=
    match habit_data with
    | some h =>
        { s with name := h.name, freq_number := h.freq_num,
                 freq_period := h.freq_period, points := h.points,
                 is_good := true, active := h.active, reminder := h.reminder,
                 habit_id := some h.id }
    | none =>
        { s with name := "", freq_number := 1, freq_period := "day",
                 points := 5, is_good := true, active := true,
                 reminder := false, habit_id := none }
  { s with selected_field := 0, editing_name := false, editing_freq := false,
           freq_edit_stage := 0, editing_points := false, selected_button := none,
           text_input := { s.text_input with value := s.name } }

/-- `EditHabitScreen.save_habit`: create (remembering the fresh id) or
update, with recurrence `"num/period"` and category from the Good/Bad
toggle. -/
def save_habit (s : EditState) (db : Db) : EditState × Db :=
  let recurrence := toString s.freq_number ++ "/" ++ s.freq_period
  let category := if s.is_good then "good" else "bad"
  match s.habit_id with
  | none =>
      let dbId := db.add_habit s.name "binary" s.points category recurrence
      ({ s with habit_id := some dbId.2 }, dbId.1)
  | some hid =>
      (s, db.update_habit hid s.name "binary" s.points category recurrence s.active)

/-- `EditHabitScreen.handle_input`. -/
def handle_input (s : EditState) (db : Db) (ev : InputEvent) : EditOut :=
  if !ev.pressed then ⟨s, db, none⟩
  else if s.editing_name then
    -- name editing delegates to the text input widget
    let tiRes := s.text_input.handle_input ev
    let s := { s with text_input := tiRes.1 }
    if ev.input_type = .buttonC then
      ⟨{ s with name := s.text_input.value, editing_name := false,
                text_input := s.text_input.deactivate }, db, none⟩
    else
      match tiRes.2 with
      | some result => ⟨{ s with name := result, editing_name := false }, db, none⟩
      | none => ⟨s, db, none⟩
  else
    match ev.input_type with
    | .left | .right =>
        let direction : Int := if ev.input_type = .right then 1 else -1
        if s.selected_button.isSome then
          if ev.input_type = .left then ⟨{ s with selected_button := some .save }, db, none⟩
          else ⟨{ s with selected_button := some .cancel }, db, none⟩
        else if s.editing_freq then
          if s.freq_edit_stage = 0 then
            ⟨{ s with freq_number := max 1 (min 6 (s.freq_number + direction)) }, db, none⟩
          else
            let currentIdx : Int := (FREQ_PERIODS.indexOf s.freq_period : Int)
            let newIdx := (currentIdx + direction) % (FREQ_PERIODS.length : Int)
            ⟨{ s with freq_period := (pyGet? FREQ_PERIODS newIdx).getD "day" }, db, none⟩
        else if s.editing_points then
          ⟨{ s with points := max 1 (min 20 (s.points + direction)) }, db, none⟩
        else ⟨s, db, none⟩
    | .up =>
        if !(s.editing_freq || s.editing_points || s.editing_name) then
          if s.selected_button.isSome then
            ⟨{ s with selected_button := none, selected_field := fieldCount - 1 }, db, none⟩
          else
            ⟨{ s with selected_field := (s.selected_field - 1) % fieldCount }, db, none⟩
        else ⟨s, db, none⟩
    | .down =>
        if !(s.editing_freq || s.editing_points || s.editing_name) then
          if s.selected_field = fieldCount - 1 then
            ⟨{ s with selected_button := some .save, selected_field := -1 }, db, none⟩
          else if s.selected_button = none then
            ⟨{ s with selected_field := (s.selected_field + 1) % fieldCount }, db, none⟩
          else ⟨s, db, none⟩
        else ⟨s, db, none⟩
    | .buttonA =>
        if s.selected_button = some .save then
          if s.name ≠ "" then
            let sdb := s.save_habit db
            ⟨sdb.1, sdb.2, some "view_habits"⟩
          else ⟨s, db, none⟩
        else if s.selected_button = some .cancel then
          ⟨s, db, some "view_habits"⟩
        else if s.selected_field = 0 then
          ⟨{ s with editing_name := true,
                    text_input := { s.text_input.activate with value := s.name } }, db, none⟩
        else if s.selected_field = 1 then
          if !s.editing_freq then
            ⟨{ s with editing_freq := true, freq_edit_stage := 0 }, db, none⟩
          else if s.freq_edit_stage = 0 then
            ⟨{ s with freq_edit_stage := 1 }, db, none⟩
          else
            ⟨{ s with editing_freq := false, freq_edit_stage := 0 }, db, none⟩
        else if s.selected_field = 2 then
          ⟨{ s with editing_points := !s.editing_points }, db, none⟩
        else if s.selected_field = 3 then
          ⟨{ s with is_good := !s.is_good }, db, none⟩
        else if s.selected_field = 4 then
          ⟨{ s with active := !s.active }, db, none⟩
        else if s.selected_field = 5 then
          ⟨{ s with reminder := !s.reminder }, db, none⟩
        else ⟨s, db, none⟩
    | _ => ⟨s, db, none⟩

/-- `EditHabitScreen.update`: ticks the text input while editing the name and
scrolls a long name while the Name field is selected. -/
def update (delta_time : Rat) (s : EditState) : EditState :=
  let s :=
    if s.editing_name then { s with text_input := s.text_input.update delta_time }
    else s
  if s.selected_field = 0 ∧ !s.editing_name ∧ 6 < s.name.length then
    let t := s.scroll_timer + delta_time
    if 3/20 ≤ t then
      { s with scroll_timer := 0,
               scroll_offset := (s.scroll_offset + 1) % ((s.name.length : Int) + 1) }
    else
      { s with scroll_timer := t }
  else
    { s with scroll_offset := 0, scroll_timer := 0 }

/-- `EditHabitScreen._get_display_name`: the name text the render step shows
(scrolling window when the Name field is selected, truncation otherwise). -/
def get_display_name (s : EditState) : String :=
  if s.name.length ≤ 6 then s.name
  else if s.selected_field = 0 ∧ !s.editing_name then
    strSlice (s.name ++ "   " ++ s.name) s.scroll_offset (s.scroll_offset + 6)
  else
    (s.name.toList.take 5).asString ++ "..."

end EditState

/-! ## Habit checker screen (`game/habit_checker_screen.py`)

The screen shows a 3-day completion grid. The current 3-day date window
(`datetime.now` derived in the source) is an external input, passed as a
list of three ISO date strings, oldest first. -/

/-- One entry of `HabitCheckerScreen.habits`. -/
structure CheckerHabit where
  id : Nat
  name : String
  checks : List Bool
deriving DecidableEq, Repr

/-- Mutable state of `HabitCheckerScreen` (the rendered `day_letters` are
derived from the clock and carry no behaviour). -/
structure CheckerState where
  habits : List CheckerHabit
  selected_habit : Int
  selected_day : Int
  checkbox_mode : Bool
  scroll_offset : Int
  scroll_timer : Rat
deriving DecidableEq, Repr

/-- `HabitCheckerScreen._load_habits`: active habits with their completion
flags over the 3-day window. -/
def load_checker_habits (db : Db) (dates : List String) : List CheckerHabit :=
  (db.get_all_habits true).map (fun h =>
    let logs := db.get_habit_logs h.id (dates.getD 0 "") (dates.getD 2 "")
    let checks := dates.map (fun date =>
      match logs.find? (fun l => l.date = date) with
      | some log => log.completed
      | none => false)
    { id := h.id, name := h.name, checks := checks })

namespace CheckerState

/-- A freshly constructed `HabitCheckerScreen(db)`: habit selection mode,
day column defaulting to today. -/
def init (db : Db) (dates : List String) : CheckerState :=
  { habits := load_checker_habits db dates
    selected_habit := 0
    selected_day := 2
    checkbox_mode := false
    scroll_offset := 0
    scroll_timer := 0 }

/-- `HabitCheckerScreen.reload_habits` (the reload hook invoked when a
transition lands on "habit_checker"). -/
def reload_habits (db : Db) (dates : List String) (s : CheckerState) : CheckerState :=
  let habits := load_checker_habits db dates
  let s := { s with habits := habits }
  if (habits.length : Int) ≤ s.selected_habit then
    { s with selected_habit := 0 }
  else s

/-- `HabitCheckerScreen._save_checkbox`: upserts a log row for the selected
habit and day (`target_date` works out to `dates[day_idx]`). A habit row
missing from the database would raise in Python; it yields points 0 here. -/
def save_checkbox (db : Db) (dates : List String) (habit : CheckerHabit)
    (dayIdx : Int) (checked : Bool) : Db :=
  let points : Int :=
    match db.get_habit_by_id habit.id with
    | some dbHabit => if checked then dbHabit.points_per else 0
    | none => 0
  db.log_habit_completion habit.id ((pyGet? dates dayIdx).getD "") checked false
    (if checked then 1 else 0) points

/-- `HabitCheckerScreen.handle_input`. -/
def handle_input (s : CheckerState) (db : Db) (dates : List String)
    (ev : InputEvent) : CheckerState × Db × Option String :=
  if !ev.pressed then (s, db, none)
  else if s.habits.isEmpty then
    -- with no habits, only going back is possible
    if ev.input_type = .left then (s, db, some "menu") else (s, db, none)
  else if !s.checkbox_mode then
    -- habit selection mode
    match ev.input_type with
    | .up =>
        ({ s with selected_habit := (s.selected_habit - 1) % (s.habits.length : Int) }, db, none)
    | .down =>
        ({ s with selected_habit := (s.selected_habit + 1) % (s.habits.length : Int) }, db, none)
    | .buttonA => ({ s with checkbox_mode := true }, db, none)
    | .left => (s, db, some "menu")
    | _ => (s, db, none)
  else
    -- checkbox mode
    match ev.input_type with
    | .left => ({ s with selected_day := (s.selected_day - 1) % 3 }, db, none)
    | .right => ({ s with selected_day := (s.selected_day + 1) % 3 }, db, none)
    | .buttonA =>
        match pyGet? s.habits s.selected_habit with
        | some habit =>
            let oldState := (pyGet? habit.checks s.selected_day).getD false
            let newState := !oldState
            let habit := { habit with checks := pySet habit.checks s.selected_day newState }
            let s := { s with habits := pySet s.habits s.selected_habit habit }
            (s, save_checkbox db dates habit s.selected_day newState, none)
        | none => (s, db, none)
    | .buttonB => ({ s with checkbox_mode := false }, db, none)
    | _ => (s, db, none)

/-- `HabitCheckerScreen.update` with `MAX_NAME_LENGTH = 8` and
`scroll_delay = 0.15`; `Option`-valued at the list access (Python only
raises there when `selected_habit < -len(habits)`). -/
def update? (delta_time : Rat) (s : CheckerState) : Option CheckerState :=
  if !s.checkbox_mode ∧ s.selected_habit < (s.habits.length : Int) then
    match pyGet? s.habits s.selected_habit with
    | some habit =>
        if 8 < habit.name.length then
          let t := s.scroll_timer + delta_time
          if 3/20 ≤ t then
            some { s with scroll_timer := 0,
                          scroll_offset := (s.scroll_offset + 1) % ((habit.name.length : Int) + 1) }
          else some { s with scroll_timer := t }
        else
          some { s with scroll_offset := 0, scroll_timer := 0 }
    | none => none
  else
    some { s with scroll_offset := 0, scroll_timer := 0 }

/-- Total wrapper of `update?`. -/
def update (delta_time : Rat) (s : CheckerState) : CheckerState :=
  (s.update? delta_time).getD s

/-- The habit-name texts drawn by `HabitCheckerScreen.render`: the selected
row scrolls when longer than 8 characters, the others are truncated. -/
def displayed_names (s : CheckerState) : List String :=
  s.habits.enum.map (fun p =>
    let habit := p.2
    let isSelected := ((p.1 : Int) = s.selected_habit) ∧ !s.checkbox_mode
    if 8 < habit.name.length then
      if isSelected then
        strSlice (habit.name ++ "   " ++ habit.name) s.scroll_offset (s.scroll_offset + 8)
      else
        (habit.name.toList.take 7).asString ++ "..."
    else habit.name)

end CheckerState

/-- The habit-name texts drawn by `ViewHabitsScreen.render` (same scheme:
the selected row scrolls, the others are truncated at 8 characters). -/
def ViewState.displayed_names (s : ViewState) : List String :=
  s.habits.enum.map (fun p =>
    let habit := p.2
    let isSelected := (p.1 : Int) = s.selected_index
    if 8 < habit.name.length then
      if isSelected then
        strSlice (habit.name ++ "   " ++ habit.name) s.scroll_offset (s.scroll_offset + 8)
      else
        (habit.name.toList.take 7).asString ++ "..."
    else habit.name)

/-! ## Popup screen (`game/popup_screen.py`) -/

/-- Mutable state of `PopupScreen` (the wrapped message lines are
render-only). Note that `PopupScreen.handle_input` in the source never
inspects `event.pressed`. -/
structure PopupState where
  message : String
  on_ok_screen : String
  on_cancel_screen : String
  selected_button : Int
deriving DecidableEq, Repr

namespace PopupState

/-- A freshly constructed `PopupScreen(message, on_ok_screen, on_cancel_screen)`. -/
def init (message okScreen cancelScreen : String) : PopupState :=
  { message := message
    on_ok_screen := okScreen
    on_cancel_screen := cancelScreen
    selected_button := 0 }

/-- `PopupScreen.handle_input`: LEFT/RIGHT select a button, BUTTON_A
confirms. The source has no `event.pressed` guard, so press and release
events are treated alike. -/
def handle_input (s : PopupState) (ev : InputEvent) : PopupState × Option String :=
  match ev.input_type with
  | .left => ({ s with selected_button := 0 }, none)
  | .right => ({ s with selected_button := 1 }, none)
  | .buttonA =>
      if s.selected_button = 0 then (s, some s.on_ok_screen)
      else (s, some s.on_cancel_screen)
  | _ => (s, none)

/-- `PopupScreen.update` is `pass`. -/
def update (_ : Rat) (s : PopupState) : PopupState := s

end PopupState

/-! ## Update screen (`game/update_screen.py`)

The git/subprocess interaction of `_check_for_updates` is external; its
outcome (success flag and message) is an input recorded in the state, and
`_restart_service` has no effect on the screen state. -/

/-- Mutable state of `UpdateScreen`; `mode` is the source's `self.state`
string ("checking" or "show_result"). -/
structure UpdateState where
  mode : String
  selected_button : Int
  message : String
  update_checked : Bool
  update_available : Bool
  check_outcome : Bool × String
deriving DecidableEq, Repr

namespace UpdateState

/-- `UpdateScreen._reset_state`. -/
def reset_state (s : UpdateState) : UpdateState :=
  { s with mode := "checking", selected_button := 0,
           message := "Checking for update...", update_checked := false,
           update_available := false }

/-- A freshly constructed `UpdateScreen()` whose eventual git check would
produce `outcome`. -/
def init (outcome : Bool × String) : UpdateState :=
  reset_state
    { mode := "", selected_button := 0, message := "", update_checked := false,
      update_available := false, check_outcome := outcome }

/-- `UpdateScreen.handle_input`: input is only honoured in the
"show_result" state; OK and Cancel both reset and return to settings. -/
def handle_input (s : UpdateState) (ev : InputEvent) : UpdateState × Option String :=
  if !ev.pressed then (s, none)
  else if s.mode ≠ "show_result" then (s, none)
  else
    match ev.input_type with
    | .left => ({ s with selected_button := 0 }, none)
    | .right => ({ s with selected_button := 1 }, none)
    | .buttonA => (s.reset_state, some "settings")
    | _ => (s, none)

/-- `UpdateScreen.update`: on the first call (regardless of the elapsed
time) it runs the git check and switches to `show_result`. -/
def update (_ : Rat) (s : UpdateState) : UpdateState :=
  if !s.update_checked then
    { s with update_checked := true, update_available := s.check_outcome.1,
             message := s.check_outcome.2, mode := "show_result" }
  else s

end UpdateState

/-! ## About screen (`game/about_screen.py`) -/

/-- Mutable state of `AboutScreen`: the wrapped README lines (loaded once at
construction) and the scroll position. -/
structure AboutState where
  lines : List String
  scroll_offset : Int
deriving DecidableEq, Repr

namespace AboutState

/-- `AboutScreen.VISIBLE_LINES`. -/
def VISIBLE_LINES : Int := 10

/-- `AboutScreen.handle_input`: UP/DOWN scroll with clamping; LEFT or
BUTTON_B go back to settings. -/
def handle_input (s : AboutState) (ev : InputEvent) : AboutState × Option String :=
  if !ev.pressed then (s, none)
  else
    let maxScroll := max 0 ((s.lines.length : Int) - VISIBLE_LINES)
    match ev.input_type with
    | .up => ({ s with scroll_offset := max 0 (s.scroll_offset - 1) }, none)
    | .down => ({ s with scroll_offset := min maxScroll (s.scroll_offset + 1) }, none)
    | .left | .buttonB => (s, some "settings")
    | _ => (s, none)

/-- `AboutScreen.update` is `pass` (no animations). -/
def update (_ : Rat) (s : AboutState) : AboutState := s

end AboutState

/-! ## Habit form screen (`game/habit_form_screen.py`) -/

/-- Mutable state of `HabitFormScreen`; `editing_field` carries the source's
field-name strings ("Name", "Points", "Time", "Days"). -/
structure FormState where
  edit_mode : Bool
  text_input : TextInput
  current_field_index : Int
  form_name : String
  form_type : Int
  form_points : String
  form_time : String
  form_days : List Bool
  editing_field : Option String
  days_selected_index : Int
deriving DecidableEq, Repr

namespace FormState

/-- `HabitFormScreen.fields`. -/
def fields : List String := ["Name", "Type", "Points", "Time", "Days"]

/-- A freshly constructed `HabitFormScreen(edit_mode)`. -/
def init (editMode : Bool) : FormState :=
  { edit_mode := editMode
    text_input := TextInput.init 16
    current_field_index := 0
    form_name := if editMode then "Gym" else ""
    form_type := 0
    form_points := if editMode then "8" else "5"
    form_time := if editMode then "09:00" else ""
    form_days := [true, true, true, true, true, false, false]
    editing_field := none
    days_selected_index := 0 }

/-- `HabitFormScreen.handle_input`. -/
def handle_input (s : FormState) (ev : InputEvent) : FormState × Option String :=
  if !ev.pressed then (s, none)
  else if s.text_input.active then
    -- text input editing routes to the widget
    let tiRes := s.text_input.handle_input ev
    let s := { s with text_input := tiRes.1 }
    match tiRes.2 with
    | some result =>
        let s :=
          if s.editing_field = some "Name" then { s with form_name := result }
          else if s.editing_field = some "Points" then { s with form_points := result }
          else if s.editing_field = some "Time" then { s with form_time := result }
          else s
        ({ s with editing_field := none }, none)
    | none => (s, none)
  else if s.editing_field = some "Days" then
    match ev.input_type with
    | .left => ({ s with days_selected_index := (s.days_selected_index - 1) % 7 }, none)
    | .right => ({ s with days_selected_index := (s.days_selected_index + 1) % 7 }, none)
    | .buttonA =>
        let old := (pyGet? s.form_days s.days_selected_index).getD false
        ({ s with form_days := pySet s.form_days s.days_selected_index (!old) }, none)
    | .buttonB => ({ s with editing_field := none }, none)
    | _ => (s, none)
  else
    match ev.input_type with
    | .up => ({ s with current_field_index := (s.current_field_index - 1) % 5 }, none)
    | .down => ({ s with current_field_index := (s.current_field_index + 1) % 5 }, none)
    | .buttonA =>
        match pyGet? fields s.current_field_index with
        | some "Name" =>
            ({ s with editing_field := some "Name",
                      text_input := { s.text_input.activate with value := s.form_name } }, none)
        | some "Points" =>
            ({ s with editing_field := some "Points",
                      text_input := { s.text_input.activate with value := s.form_points } }, none)
        | some "Time" =>
            ({ s with editing_field := some "Time",
                      text_input := { s.text_input.activate with value := s.form_time } }, none)
        | some "Days" =>
            ({ s with editing_field := some "Days", days_selected_index := 0 }, none)
        | _ => (s, none)
    | .left | .right =>
        if pyGet? fields s.current_field_index = some "Type" then
          let direction : Int := if ev.input_type = .right then 1 else -1
          ({ s with form_type := (s.form_type + direction) % 2 }, none)
        else (s, none)
    | .buttonB => (s, some "habits")
    | .buttonC => (s, some "habits")
    | _ => (s, none)

/-- `HabitFormScreen.update`: ticks the text input widget. -/
def update (delta_time : Rat) (s : FormState) : FormState :=
  { s with text_input := s.text_input.update delta_time }

end FormState

/-! ## Configuration (`config.py`) and frame pacing (`game/app.py`) -/

namespace Config

/-- `Config.TARGET_FPS` from `config.py`. -/
def TARGET_FPS : Nat := 20

end Config

/-- `App.__init__`: `self._frame_time = 1.0 / target_fps` (in seconds; for
the configured 20 fps this is 1/20 s = 50 ms). -/
def frame_time (targetFps : Nat) : Rat := 1 / targetFps

/-- The sleep duration of one `App.run` iteration:
`sleep_time = self._frame_time - elapsed`, slept only `if sleep_time > 0`,
so the loop sleeps `frame_time - elapsed` when that is positive and zero
otherwise. -/
def sleep_time (frameTime elapsed : Rat) : Rat :=
  if 0 < frameTime - elapsed then frameTime - elapsed else 0

/-! ## The application (`game/app.py`) -/

/-- The state of one registered screen instance. -/
inductive ScreenState where
  | home (s : HomeState)
  | menu (s : MenuState)
  | habits (s : HabitsState)
  | stats (s : StatsState)
  | settings (s : SettingsState)
  | habitForm (s : FormState)
  | viewHabits (s : ViewState)
  | editHabit (s : EditState)
  | habitChecker (s : CheckerState)
  | popup (s : PopupState)
  | updateScr (s : UpdateState)
  | about (s : AboutState)
deriving DecidableEq, Repr

/-- What one delegated `handle_input` call did: the new state of the
dispatched screen, the database, the handoff slot
(`ViewHabitsScreen.selected_habit_data`), and the transition result. -/
structure DispatchOut where
  screen : ScreenState
  db : Db
  handoff : Option Habit
  result : Option String
deriving Repr

/-- `self.current_screen.handle_input(event)`: dispatch to the active
screen, threading the effects each screen can have. -/
def dispatchToScreen (sc : ScreenState) (db : Db) (handoff : Option Habit)
    (dates : List String) (ev : InputEvent) : DispatchOut :=
  match sc with
  | .home s => let r := s.handle_input ev; ⟨.home r.1, db, handoff, r.2⟩
  | .menu s => let r := s.handle_input ev; ⟨.menu r.1, db, handoff, r.2⟩
  | .habits s => let r := s.handle_input ev; ⟨.habits r.1, db, handoff, r.2⟩
  | .stats s => let r := s.handle_input ev; ⟨.stats r.1, db, handoff, r.2⟩
  | .settings s => let r := s.handle_input ev; ⟨.settings r.1, db, handoff, r.2⟩
  | .habitForm s => let r := s.handle_input ev; ⟨.habitForm r.1, db, handoff, r.2⟩
  | .viewHabits s =>
      let r := s.handle_input db ev
      ⟨.viewHabits r.state, r.db,
       (match r.handoff_write with | some v => v | none => handoff), r.result⟩
  | .editHabit s =>
      let r := s.handle_input db ev
      ⟨.editHabit r.state, r.db, handoff, r.result⟩
  | .habitChecker s =>
      let r := s.handle_input db dates ev
      ⟨.habitChecker r.1, r.2.1, handoff, r.2.2⟩
  | .popup s => let r := s.handle_input ev; ⟨.popup r.1, db, handoff, r.2⟩
  | .updateScr s => let r := s.handle_input ev; ⟨.updateScr r.1, db, handoff, r.2⟩
  | .about s => let r := s.handle_input ev; ⟨.about r.1, db, handoff, r.2⟩

/-- The per-screen `update` dispatch of `App._update`. -/
def screenUpdate (delta_time : Rat) : ScreenState → ScreenState
  | .home s => .home (s.update delta_time)
  | .menu s => .menu (s.update delta_time)
  | .habits s => .habits (s.update delta_time)
  | .stats s => .stats (s.update delta_time)
  | .settings s => .settings (s.update delta_time)
  | .habitForm s => .habitForm (s.update delta_time)
  | .viewHabits s => .viewHabits (s.update delta_time)
  | .editHabit s => .editHabit (s.update delta_time)
  | .habitChecker s => .habitChecker (s.update delta_time)
  | .popup s => .popup (s.update delta_time)
  | .updateScr s => .updateScr (s.update delta_time)
  | .about s => .about (s.update delta_time)

/-- `self.screens[name]` lookup (the registry is a dict; names are unique). -/
def lookupScreen (screens : List (String × ScreenState)) (name : String) :
    Option ScreenState :=
  (screens.find? (fun p => p.1 = name)).map (fun p => p.2)

/-- Store a (mutated) screen object back under its registry name; in Python
this is aliasing of the same object, here it is an explicit write-back. -/
def setScreen (screens : List (String × ScreenState)) (name : String)
    (st : ScreenState) : List (String × ScreenState) :=
  screens.map (fun p => if p.1 = name then (p.1, st) else p)

/-- `App` state: the registry, the current-screen pointer (a name; the
Python object pointer aliases the registry entry), the loop flag, and the
externals (database, handoff slot, the checker's current 3-day window). -/
structure AppState where
  screens : List (String × ScreenState)
  current_screen_name : String
  running : Bool
  db : Db
  handoff : Option Habit
  dates : List String
deriving Repr

/-- The target-specific reload performed by `App._handle_input` after the
registry gate: `edit_habit` gets `load_habit_data(selected_habit_data)`,
`view_habits` and `habit_checker` get `reload_habits()`; the `isinstance`
checks of the source correspond to the constructor matches. -/
def applyReload (name : String) (sc : ScreenState) (db : Db)
    (handoff : Option Habit) (dates : List String) : ScreenState :=
  if name = "edit_habit" then
    match sc with
    | .editHabit es => .editHabit (es.load_habit_data handoff)
    | _ => sc
  else if name = "view_habits" then
    match sc with
    | .viewHabits vs => .viewHabits (vs.reload_habits db)
    | _ => sc
  else if name = "habit_checker" then
    match sc with
    | .habitChecker cs => .habitChecker (cs.reload_habits db dates)
    | _ => sc
  else sc

namespace AppState

/-- `App._handle_input`, generic in the screen dispatch (the concrete
application instantiates it with `dispatchToScreen`): quit stops the loop
without delegating; otherwise the event goes to the active screen and a
returned name is honoured only if truthy and present in the registry
(`if next_screen and next_screen in self.screens`). -/
def handleInputGen
    (dispatch : ScreenState → Db → Option Habit → List String → InputEvent → DispatchOut)
    (app : AppState) (ev : Option InputEvent) : AppState :=
  match ev with
  | none => app
  | some event =>
    if event.input_type = .quit then { app with running := false }
    else
      match lookupScreen app.screens app.current_screen_name with
      | none => app   -- the live current-screen pointer always resolves
      | some sc =>
        let out := dispatch sc app.db app.handoff app.dates event
        let app :=
          { app with
              screens := setScreen app.screens app.current_screen_name out.screen
              db := out.db
              handoff := out.handoff }
        match out.result with
        | none => app
        | some next =>
          if next ≠ "" ∧ (lookupScreen app.screens next).isSome then
            let screens2 :=
              match lookupScreen app.screens next with
              | some target =>
                  setScreen app.screens next
                    (applyReload next target app.db app.handoff app.dates)
              | none => app.screens
            { app with screens := screens2, current_screen_name := next }
          else app

/-- `App._handle_input` with the concrete screen dispatch. -/
def handle_input (app : AppState) (ev : Option InputEvent) : AppState :=
  handleInputGen dispatchToScreen app ev

/-- `App._update`: delegates to the (possibly just-swapped) current screen. -/
def update (delta_time : Rat) (app : AppState) : AppState :=
  match lookupScreen app.screens app.current_screen_name with
  | none => app
  | some sc =>
      { app with screens :=
          setScreen app.screens app.current_screen_name (screenUpdate delta_time sc) }

end AppState

/-- The observable steps of one `App.run` loop iteration, in source order
(render draws to the display buffer and present pushes it; both are
display-sink effects outside the model state). -/
inductive FramePhase where
  | handleInput
  | update
  | render
  | present
deriving DecidableEq, Repr

/-- One full iteration of the `while self.running` body of `App.run`:
process input, update, render, present (FPS bookkeeping and pacing have no
effect on this state). The phase list records what the body performed. -/
def frameStep (app : AppState) (ev : Option InputEvent) (delta_time : Rat) :
    AppState × List FramePhase :=
  let a1 := app.handle_input ev
  let a2 := AppState.update delta_time a1
  (a2, [.handleInput, .update, .render, .present])

/-- `App.run`: the loop keeps iterating while `self.running` holds, checking
the flag only at the top of each iteration. It consumes one polled event and
one delta per frame; the result counts the completed iterations. -/
def run : AppState → List (Option InputEvent × Rat) → AppState × Nat
  | app, [] => (app, 0)
  | app, f :: fs =>
      if app.running then
        let step := frameStep app f.1 f.2
        let rest := run step.1 fs
        (rest.1, rest.2 + 1)
      else (app, 0)

/-- The keys of the screen registry built in `main.py`. -/
def registryNames : List String :=
  ["home", "menu", "habits", "stats", "settings", "habit_form",
   "habit_form_edit", "view_habits", "edit_habit", "habit_checker",
   "popup_delete", "update", "about"]

/-- The registry constraint that `main.py` establishes for the one
`PopupScreen` instance: both its targets are "view_habits". The other
screens return only string literals. -/
def PopupTargets : ScreenState → Prop
  | .popup p => p.on_ok_screen = "view_habits" ∧ p.on_cancel_screen = "view_habits"
  | _ => True

/-! ## Reachability invariants

Each accumulating timer is reset to zero the moment it reaches its
threshold, and every handler leaves the timers alone or zeroes them, so in
every state an actual run can be in, each timer is strictly below its
threshold. The selection cursors likewise stay in range. These predicates
capture exactly that; preservation lemmas are proved below. -/

/-- Timer invariant of the text input widget (blink threshold 0.5 s). -/
def TextInput.Inv (s : TextInput) : Prop :=
  s.cursor_blink_timer < 1/2

/-- Timer invariant of the speech bubble (frame delay 0.1 s, scroll delay
0.15 s). -/
def SpeechBubble.Inv (s : SpeechBubble) : Prop :=
  s.frame_timer < 1/10 ∧ s.scroll_timer < 3/20

/-- Timer invariant of the home screen (animation frame delay 0.15 s). -/
def HomeState.Inv (s : HomeState) : Prop :=
  s.frame_timer < 3/20 ∧ s.speech_bubble.Inv

/-- Timer invariant of the view-habits screen (scroll delay 0.15 s). -/
def ViewState.Inv (s : ViewState) : Prop :=
  s.scroll_timer < 3/20

/-- Timer and cursor invariant of the habit checker (the habit cursor is
never negative: it only moves by `% len`). -/
def CheckerState.Inv (s : CheckerState) : Prop :=
  s.scroll_timer < 3/20 ∧ 0 ≤ s.selected_habit

/-- Timer invariant of the edit-habit screen. -/
def EditState.Inv (s : EditState) : Prop :=
  s.scroll_timer < 3/20 ∧ s.text_input.Inv

/-- Timer invariant of the habit form screen. -/
def FormState.Inv (s : FormState) : Prop :=
  s.text_input.Inv

/-! ## Repeated key presses (for the wraparound scenarios) -/

/-- Apply a one-press step function `n` times. -/
def pressTimes {σ : Type} (step : σ → σ) : Nat → σ → σ
  | 0, s => s
  | n + 1, s => pressTimes step n (step s)

/-- One "down" press on the menu screen. -/
def menuDown (s : MenuState) : MenuState :=
  (s.handle_input ⟨.down, true⟩).1

/-- One "up" press on the menu screen. -/
def menuUp (s : MenuState) : MenuState :=
  (s.handle_input ⟨.up, true⟩).1

/-- One "down" press on the legacy habits screen. -/
def habitsDown (s : HabitsState) : HabitsState :=
  (s.handle_input ⟨.down, true⟩).1

/-- One "up" press on the legacy habits screen. -/
def habitsUp (s : HabitsState) : HabitsState :=
  (s.handle_input ⟨.up, true⟩).1

/-- One "down" press on the habit checker (state part). -/
def checkerDown (db : Db) (dates : List String) (s : CheckerState) : CheckerState :=
  (s.handle_input db dates ⟨.down, true⟩).1

/-- One "up" press on the habit checker (state part). -/
def checkerUp (db : Db) (dates : List String) (s : CheckerState) : CheckerState :=
  (s.handle_input db dates ⟨.up, true⟩).1

/-- One "down" press on the view-habits screen (state part). -/
def viewDown (db : Db) (s : ViewState) : ViewState :=
  (s.handle_input db ⟨.down, true⟩).state

/-- One "up" press on the view-habits screen (state part). -/
def viewUp (db : Db) (s : ViewState) : ViewState :=
  (s.handle_input db ⟨.up, true⟩).state

/-- One "down" press on the settings screen. -/
def settingsDown (s : SettingsState) : SettingsState :=
  (s.handle_input ⟨.down, true⟩).1

/-- One "up" press on the settings screen. -/
def settingsUp (s : SettingsState) : SettingsState :=
  (s.handle_input ⟨.up, true⟩).1

/-! ## Concrete sample values used by the witnesses -/

/-- An empty database. -/
def db0 : Db := { habits := [], logs := [], next_id := 1 }

/-- A sample screen-format habit with a short name. -/
def habitGym : Habit :=
  { id := 1, name := "Gym", points := 5, freq_num := 1, freq_period := "day",
    active := true, reminder := false }

/-- A sample screen-format habit with a name longer than 8 characters. -/
def habitLong : Habit :=
  { id := 2, name := "Meditation", points := 8, freq_num := 3,
    freq_period := "week", active := true, reminder := false }

/-- A minimal application whose registry contains only the home screen, so
that the home screen's "menu" transition targets an unregistered name. -/
def appC1 : AppState :=
  { screens := [("home", .home HomeState.init)]
    current_screen_name := "home"
    running := true
    db := db0
    handoff := none
    dates := [] }

/-- A fresh edit-habit screen state (a previous visit that left no marks). -/
def edFresh : EditState := EditState.init

/-- An edit-habit screen state as a previous visit can leave it: nonzero
name-scroll offset and a used text-input widget (cursor blinked off,
character picker moved). -/
def edStale : EditState :=
  { EditState.init with
      scroll_offset := 3
      text_input :=
        { EditState.init.text_input with show_cursor := false, current_char_index := 5 } }

/-- A view-habits screen state with exactly one habit and the cursor on
habit row 0. -/
def vsOne : ViewState :=
  { habits := [habitGym]
    selected_index := 0
    scroll_offset := 0
    scroll_timer := 0
    show_delete_popup := false
    popup_selected_button := 0 }

/-- A view-habits screen state whose previous selection left a nonzero
scroll offset while the cursor sits on the NEW HABIT button. -/
def vsScrolled : ViewState :=
  { habits := [habitLong]
    selected_index := -1
    scroll_offset := 3
    scroll_timer := 0
    show_delete_popup := false
    popup_selected_button := 0 }

/-- A habit-checker state with one habit, used by witnesses. -/
def csOne : CheckerState :=
  { habits := [{ id := 1, name := "Gym", checks := [false, false, false] }]
    selected_habit := 0
    selected_day := 2
    checkbox_mode := false
    scroll_offset := 0
    scroll_timer := 0 }

/-- The registered popup instance (`main.py`): both targets "view_habits". -/
def popupDelete : PopupState :=
  PopupState.init "Are you sure you want to delete habit?" "view_habits" "view_habits"

/-- An edit-habit state sitting on the Save button with an empty name. -/
def edSaveEmpty : EditState :=
  { EditState.init with selected_button := some .save, selected_field := -1 }

/-- An edit-habit state sitting on the Save button with a non-empty name. -/
def edSaveNamed : EditState :=
  { EditState.init with name := "Gym", selected_button := some .save, selected_field := -1 }

/-! # Theorems

First a collection of supporting lemmas about the helpers, the registry
operations and the loop; the claim theorems follow. -/

/-- `pyGet?` succeeds on an in-range non-negative index. -/
theorem pyGet?_isSome_of_lt {α : Type} (xs : List α) (i : Int)
    (h0 : 0 ≤ i) (h1 : i < (xs.length : Int)) : (pyGet? xs i).isSome := by
  unfold pyGet?
  rw [if_pos h0]
  have hlt : i.toNat < xs.length := by omega
  simp [List.get?_eq_getElem?, List.getElem?_eq_some_iff, hlt]

/-- A `pyGet?` hit is a member of the list. -/
theorem pyGet?_mem {α : Type} {xs : List α} {i : Int} {a : α}
    (h : pyGet? xs i = some a) : a ∈ xs := by
  unfold pyGet? at h
  split at h
  · exact List.get?_mem h
  · split at h
    · exact List.get?_mem h
    · cases h

/-- On a non-negative in-range index, `pyGet?` is plain `get?`. -/
theorem pyGet?_nonneg {α : Type} (xs : List α) (i : Int) (h0 : 0 ≤ i) :
    pyGet? xs i = xs.get? i.toNat := by
  unfold pyGet?
  rw [if_pos h0]

/-- `lookupScreen` on a cons cell. -/
theorem lookupScreen_cons (q : String × ScreenState) (l : List (String × ScreenState))
    (m : String) :
    lookupScreen (q :: l) m = if q.1 = m then some q.2 else lookupScreen l m := by
  by_cases h : q.1 = m
  · simp [lookupScreen, List.find?_cons, h]
  · simp [lookupScreen, List.find?_cons, h]

/-- `setScreen` on a cons cell. -/
theorem setScreen_cons (p : String × ScreenState) (ps : List (String × ScreenState))
    (name : String) (st : ScreenState) :
    setScreen (p :: ps) name st =
      (if p.1 = name then (p.1, st) else p) :: setScreen ps name st := rfl

/-- `setScreen` never touches entries under other names. -/
theorem lookupScreen_setScreen_ne (screens : List (String × ScreenState))
    (name : String) (st : ScreenState) (m : String) (h : m ≠ name) :
    lookupScreen (setScreen screens name st) m = lookupScreen screens m := by
  induction screens with
  | nil => rfl
  | cons p ps ih =>
      rw [setScreen_cons, lookupScreen_cons, lookupScreen_cons]
      by_cases hp : p.1 = name
      · have hm : ¬ (p.1 = m) := fun hc => h (by rw [← hc, hp])
        rw [if_pos hp]
        rw [if_neg (show ¬ ((p.1, st).1 = m) from hm), if_neg hm]
        exact ih
      · rw [if_neg hp]
        by_cases hm : p.1 = m
        · rw [if_pos hm, if_pos hm]
        · rw [if_neg hm, if_neg hm]
          exact ih

/-- `setScreen` preserves absence of a key. -/
theorem lookupScreen_setScreen_none (screens : List (String × ScreenState))
    (name : String) (st : ScreenState) (n : String)
    (h : lookupScreen screens n = none) :
    lookupScreen (setScreen screens name st) n = none := by
  induction screens with
  | nil => rfl
  | cons p ps ih =>
      rw [lookupScreen_cons] at h
      rw [setScreen_cons, lookupScreen_cons]
      by_cases hn : p.1 = n
      · rw [if_pos hn] at h
        cases h
      · rw [if_neg hn] at h
        by_cases hp : p.1 = name
        · rw [if_pos hp]
          rw [if_neg (show ¬ ((p.1, st).1 = n) from hn)]
          exact ih h
        · rw [if_neg hp, if_neg hn]
          exact ih h

/-- `App._update` does not touch the running flag. -/
theorem update_running (delta : Rat) (a : AppState) :
    (AppState.update delta a).running = a.running := by
  unfold AppState.update
  cases lookupScreen a.screens a.current_screen_name <;> rfl

/-- On a quit event `App._handle_input` merely clears the running flag. -/
theorem handle_input_quit (app : AppState) (ev : InputEvent)
    (hq : ev.input_type = .quit) :
    app.handle_input (some ev) = { app with running := false } := by
  unfold AppState.handle_input AppState.handleInputGen
  simp [hq]

/-- A stopped loop performs no further iterations. -/
theorem run_of_not_running (app : AppState) (l : List (Option InputEvent × Rat))
    (h : app.running = false) : run app l = (app, 0) := by
  cases l with
  | nil => rfl
  | cons f fs => simp [run, h]

/-- Claim C9: an input event of kind Quit stops the main loop regardless of
its pressed flag (a Quit release also terminates), and a Quit event is never
forwarded to the active screen's handle_input: the result of
`App._handle_input` on a Quit event is the same for any screen dispatch
whatsoever, and equals the state with only the running flag cleared. -/
theorem C9_quit_stops_without_forwarding
    (d1 d2 : ScreenState → Db → Option Habit → List String → InputEvent → DispatchOut)
    (app : AppState) (b : Bool) :
    AppState.handleInputGen d1 app (some ⟨.quit, b⟩) = { app with running := false } ∧
    AppState.handleInputGen d1 app (some ⟨.quit, b⟩) =
      AppState.handleInputGen d2 app (some ⟨.quit, b⟩) := by
  constructor <;> rfl

/-- Claim C2: a frame whose polled event is Quit with pressed=true completes
the whole loop body — input handling, then update, then render and present —
and only then does the loop stop: the run of the loop from such a frame
performs exactly that one full iteration (whatever frames would follow), its
result is the state after the full body, and the body's phase sequence is
input, update, render, present. -/
theorem C2_quit_completes_frame (app : AppState) (ev : InputEvent) (delta : Rat)
    (rest : List (Option InputEvent × Rat))
    (hrun : app.running = true) (hq : ev.input_type = .quit) (_hp : ev.pressed = true) :
    run app ((some ev, delta) :: rest) =
      (AppState.update delta (app.handle_input (some ev)), 1) ∧
    (frameStep app (some ev) delta).1 = AppState.update delta (app.handle_input (some ev)) ∧
    (frameStep app (some ev) delta).2 = [.handleInput, .update, .render, .present] ∧
    (AppState.update delta (app.handle_input (some ev))).running = false := by
  have hstop : (AppState.update delta (app.handle_input (some ev))).running = false := by
    rw [update_running, handle_input_quit app ev hq]
  refine ⟨?_, rfl, rfl, hstop⟩
  have hrest : run (frameStep app (some ev) delta).1 rest =
      ((frameStep app (some ev) delta).1, 0) :=
    run_of_not_running _ rest hstop
  simp only [run, hrun, if_true, hrest]
  rfl

/-- Witness for C2 at a concrete application state and a concrete frame
list. -/
theorem C2_witness :
    run appC1 [(some ⟨.quit, true⟩, 1/20)] =
      (AppState.update (1/20) (appC1.handle_input (some ⟨.quit, true⟩)), 1) ∧
    (AppState.update (1/20) (appC1.handle_input (some ⟨.quit, true⟩))).running = false := by
  have h := C2_quit_completes_frame appC1 ⟨.quit, true⟩ (1/20) [] rfl rfl rfl
  exact ⟨h.1, h.2.2.2⟩

/-- Claim C5: with the configured 20 frames per second the frame period is
1/20 s (50 ms), and each iteration sleeps exactly the period minus the
iteration's work time when that difference is positive and zero otherwise
(work equal to or above the period sleeps zero, with no compensation). -/
theorem C5_frame_pacing (work : Rat) :
    frame_time Config.TARGET_FPS = 1/20 ∧
    (work < 1/20 → sleep_time (frame_time Config.TARGET_FPS) work = 1/20 - work) ∧
    (1/20 ≤ work → sleep_time (frame_time Config.TARGET_FPS) work = 0) := by
  have hf : frame_time Config.TARGET_FPS = 1/20 := by
    norm_num [frame_time, Config.TARGET_FPS]
  refine ⟨hf, fun h => ?_, fun h => ?_⟩
  · rw [hf]
    unfold sleep_time
    rw [if_pos (by linarith)]
  · rw [hf]
    unfold sleep_time
    rw [if_neg (by linarith)]

/-- Witness for C5: an 10 ms frame sleeps 40 ms; a 100 ms frame sleeps
zero. -/
theorem C5_witness :
    sleep_time (frame_time Config.TARGET_FPS) (1/100) = 1/20 - 1/100 ∧
    sleep_time (frame_time Config.TARGET_FPS) (1/10) = 0 :=
  ⟨(C5_frame_pacing (1/100)).2.1 (by norm_num),
   (C5_frame_pacing (1/10)).2.2 (by norm_num)⟩

/-- Claim C4, counterexample: the popup screen does not model long-press or
drag behaviour, yet a BUTTON_A release (pressed=false) on the registered
delete popup returns its OK transition instead of None, and a LEFT release
moves its selection. -/
theorem C4_counterexample :
    popupDelete.handle_input ⟨.buttonA, false⟩ = (popupDelete, some "view_habits") ∧
    (popupDelete.handle_input ⟨.buttonA, false⟩).2 ≠ none ∧
    ({ popupDelete with selected_button := 1 }.handle_input ⟨.left, false⟩).1 ≠
      { popupDelete with selected_button := 1 } := by
  refine ⟨rfl, by decide, by decide⟩

/-- Claim C4, amended: for every registered screen except the popup screen,
an input event with pressed=false is a complete no-op — the handler returns
no transition and leaves the screen state, the database, and the handoff
slot untouched. The popup screen's handler never reads the pressed flag, so
it treats a release exactly like the corresponding press. -/
theorem C4_release_events_ignored (t : InputType) :
    (∀ s : HomeState, s.handle_input ⟨t, false⟩ = (s, none)) ∧
    (∀ s : MenuState, s.handle_input ⟨t, false⟩ = (s, none)) ∧
    (∀ s : HabitsState, s.handle_input ⟨t, false⟩ = (s, none)) ∧
    (∀ s : StatsState, s.handle_input ⟨t, false⟩ = (s, none)) ∧
    (∀ s : SettingsState, s.handle_input ⟨t, false⟩ = (s, none)) ∧
    (∀ s : FormState, s.handle_input ⟨t, false⟩ = (s, none)) ∧
    (∀ (s : ViewState) (db : Db), s.handle_input db ⟨t, false⟩ = ⟨s, db, none, none⟩) ∧
    (∀ (s : EditState) (db : Db), s.handle_input db ⟨t, false⟩ = ⟨s, db, none⟩) ∧
    (∀ (s : CheckerState) (db : Db) (dates : List String),
      s.handle_input db dates ⟨t, false⟩ = (s, db, none)) ∧
    (∀ s : UpdateState, s.handle_input ⟨t, false⟩ = (s, none)) ∧
    (∀ s : AboutState, s.handle_input ⟨t, false⟩ = (s, none)) ∧
    (∀ (s : PopupState) (b : Bool), s.handle_input ⟨t, b⟩ = s.handle_input ⟨t, true⟩) := by
  refine ⟨fun s => rfl, fun s => rfl, fun s => rfl, fun s => rfl, fun s => rfl,
          fun s => rfl, fun s db => rfl, fun s db => rfl, fun s db dates => rfl,
          fun s => rfl, fun s => rfl, fun s b => rfl⟩

/-- Claim C3, counterexample: the edit screen's reload hook does not derive
its state from the handoff payload alone — two previous-visit states that
differ only in text-scroll position and text-input cursor state stay
different after `load_habit_data` receives the same payload. -/
theorem C3_counterexample :
    EditState.load_habit_data (some habitGym) edFresh ≠
      EditState.load_habit_data (some habitGym) edStale := by
  decide

/-- Claim C3, amended: after `load_habit_data` receives payload V, every
form field, the field selection, the edit-mode flags, the button selection
and the text-input buffer are functions of V alone (set from V or to the
create-new defaults), but the name-scroll state (`scroll_offset`,
`scroll_timer`) and the text-input widget's character-picker index, active
flag, blink timer and cursor visibility keep their previous-visit values. -/
theorem C3_reload_derivation (V : Option Habit) (s : EditState) :
    ((EditState.load_habit_data V s).name =
      (match V with | some h => h.name | none => "")) ∧
    ((EditState.load_habit_data V s).freq_number =
      (match V with | some h => h.freq_num | none => 1)) ∧
    ((EditState.load_habit_data V s).freq_period =
      (match V with | some h => h.freq_period | none => "day")) ∧
    ((EditState.load_habit_data V s).points =
      (match V with | some h => h.points | none => 5)) ∧
    (EditState.load_habit_data V s).is_good = true ∧
    ((EditState.load_habit_data V s).active =
      (match V with | some h => h.active | none => true)) ∧
    ((EditState.load_habit_data V s).reminder =
      (match V with | some h => h.reminder | none => false)) ∧
    ((EditState.load_habit_data V s).habit_id =
      (match V with | some h => some h.id | none => none)) ∧
    (EditState.load_habit_data V s).selected_field = 0 ∧
    (EditState.load_habit_data V s).editing_name = false ∧
    (EditState.load_habit_data V s).editing_freq = false ∧
    (EditState.load_habit_data V s).freq_edit_stage = 0 ∧
    (EditState.load_habit_data V s).editing_points = false ∧
    (EditState.load_habit_data V s).selected_button = none ∧
    (EditState.load_habit_data V s).text_input.value =
      (EditState.load_habit_data V s).name ∧
    (EditState.load_habit_data V s).scroll_offset = s.scroll_offset ∧
    (EditState.load_habit_data V s).scroll_timer = s.scroll_timer ∧
    (EditState.load_habit_data V s).text_input.current_char_index =
      s.text_input.current_char_index ∧
    (EditState.load_habit_data V s).text_input.active = s.text_input.active ∧
    (EditState.load_habit_data V s).text_input.cursor_blink_timer =
      s.text_input.cursor_blink_timer ∧
    (EditState.load_habit_data V s).text_input.show_cursor = s.text_input.show_cursor ∧
    (EditState.load_habit_data V s).text_input.max_length = s.text_input.max_length := by
  cases V <;> simp [EditState.load_habit_data]

/-- Claim C10: on the edit screen, a confirm press while the Save button is
selected saves and transitions to "view_habits" exactly when the name is
non-empty; with an empty name it performs no database write and no
transition, the screen state unchanged. -/
theorem C10_save_gated_on_name (s : EditState) (db : Db)
    (hn : s.editing_name = false) (hb : s.selected_button = some .save) :
    (s.name = "" → s.handle_input db ⟨.buttonA, true⟩ = ⟨s, db, none⟩) ∧
    (s.name ≠ "" → s.handle_input db ⟨.buttonA, true⟩ =
      ⟨(s.save_habit db).1, (s.save_habit db).2, some "view_habits"⟩) := by
  constructor <;> intro hname <;>
    simp [EditState.handle_input, hn, hb, hname]

/-- Witness for C10: the empty-name state stays put with the database
untouched; the named state saves and transitions. -/
theorem C10_witness :
    edSaveEmpty.handle_input db0 ⟨.buttonA, true⟩ = ⟨edSaveEmpty, db0, none⟩ ∧
    edSaveNamed.handle_input db0 ⟨.buttonA, true⟩ =
      ⟨(edSaveNamed.save_habit db0).1, (edSaveNamed.save_habit db0).2,
       some "view_habits"⟩ :=
  ⟨(C10_save_gated_on_name edSaveEmpty db0 rfl rfl).1 rfl,
   (C10_save_gated_on_name edSaveNamed db0 rfl rfl).2 (by decide)⟩

/-- Claim C1: when the active screen's handler returns a screen name that is
not a key of the registry, the application treats the transition as a no-op:
the active screen name is unchanged, the loop's running flag is unchanged
(no crash, no termination), and no other registry entry — in particular no
reload hook of any target screen — is touched. -/
theorem C1_unregistered_transition_noop (app : AppState) (ev : InputEvent)
    (sc : ScreenState) (n : String)
    (hq : ev.input_type ≠ .quit)
    (hcur : lookupScreen app.screens app.current_screen_name = some sc)
    (hres : (dispatchToScreen sc app.db app.handoff app.dates ev).result = some n)
    (hmiss : lookupScreen app.screens n = none) :
    (app.handle_input (some ev)).current_screen_name = app.current_screen_name ∧
    (app.handle_input (some ev)).running = app.running ∧
    ∀ m, m ≠ app.current_screen_name →
      lookupScreen (app.handle_input (some ev)).screens m = lookupScreen app.screens m := by
  have hmiss2 : lookupScreen
      (setScreen app.screens app.current_screen_name
        (dispatchToScreen sc app.db app.handoff app.dates ev).screen) n = none :=
    lookupScreen_setScreen_none _ _ _ _ hmiss
  unfold AppState.handle_input AppState.handleInputGen
  simp only [hq, if_neg, hcur, hres]
  simp only [hmiss2, Option.isSome_none, Bool.false_eq_true, and_false, if_false]
  exact ⟨trivial, trivial, fun m hm => lookupScreen_setScreen_ne _ _ _ _ hm⟩

/-- Witness for C1: in an application whose registry holds only the home
screen, a RIGHT press (home returns "menu", unregistered here) leaves the
application on "home" with the loop still running. -/
theorem C1_witness :
    (appC1.handle_input (some ⟨.right, true⟩)).current_screen_name = "home" ∧
    (appC1.handle_input (some ⟨.right, true⟩)).running = true := by
  have h := C1_unregistered_transition_noop appC1 ⟨.right, true⟩
    (.home HomeState.init) "menu" (by decide) rfl rfl rfl
  exact ⟨h.1, h.2.1⟩

/-- For a positive modulus, Python's `(-1) % n` is `n - 1`. -/
theorem neg_one_emod (n : Int) (h : 0 < n) : (-1) % n = n - 1 := by
  have h1 : (-1 : Int) % n = (-1 + n * 1) % n := (Int.add_mul_emod_self_left (-1) n 1).symm
  rw [h1]
  have h2 : (-1 + n * 1 : Int) = n - 1 := by ring
  rw [h2]
  exact Int.emod_eq_of_lt (by omega) (by omega)

/-- One "down" press on the legacy habits screen advances the cursor modulo
the menu length. -/
theorem habitsDown_eq (s : HabitsState) :
    habitsDown s =
      { s with selected_index := (s.selected_index + 1) % (s.menu_items.length : Int) } := rfl

/-- One "up" press on the legacy habits screen steps the cursor back modulo
the menu length. -/
theorem habitsUp_eq (s : HabitsState) :
    habitsUp s =
      { s with selected_index := (s.selected_index - 1) % (s.menu_items.length : Int) } := rfl

/-- One "down" press on the habit checker in habit-selection mode. -/
theorem checkerDown_eq (db : Db) (dates : List String) (s : CheckerState)
    (h : s.habits ≠ []) (hm : s.checkbox_mode = false) :
    checkerDown db dates s =
      { s with selected_habit := (s.selected_habit + 1) % (s.habits.length : Int) } := by
  have hne : s.habits.isEmpty = false := by
    cases hh : s.habits with
    | nil => exact absurd hh h
    | cons a l => rfl
  unfold checkerDown CheckerState.handle_input
  simp [hne, hm]

/-- One "up" press on the habit checker in habit-selection mode. -/
theorem checkerUp_eq (db : Db) (dates : List String) (s : CheckerState)
    (h : s.habits ≠ []) (hm : s.checkbox_mode = false) :
    checkerUp db dates s =
      { s with selected_habit := (s.selected_habit - 1) % (s.habits.length : Int) } := by
  have hne : s.habits.isEmpty = false := by
    cases hh : s.habits with
    | nil => exact absurd hh h
    | cons a l => rfl
  unfold checkerUp CheckerState.handle_input
  simp [hne, hm]

/-- One "down" press on the view-habits screen: past the last habit the
cursor jumps to the NEW HABIT button (index -1). -/
theorem viewDown_eq (db : Db) (s : ViewState) (hp : s.show_delete_popup = false) :
    viewDown db s =
      { s with selected_index :=
          if (s.habits.length : Int) ≤ s.selected_index + 1 then -1
          else s.selected_index + 1 } := by
  unfold viewDown ViewState.handle_input
  simp [hp]

/-- One "up" press on the view-habits screen: from habit row 0 the cursor
moves to the NEW HABIT button (index -1), and from the button it wraps to
the last habit. -/
theorem viewUp_eq (db : Db) (s : ViewState) (hp : s.show_delete_popup = false) :
    viewUp db s =
      { s with selected_index :=
          if s.selected_index - 1 < -1 then (s.habits.length : Int) - 1
          else s.selected_index - 1 } := by
  unfold viewUp ViewState.handle_input
  simp [hp]

/-- Iterated "down" presses on the legacy habits screen move the cursor to
the start position plus the press count, modulo the menu length. -/
theorem habits_down_iter (k : Nat) : ∀ (s : HabitsState),
    0 ≤ s.selected_index → s.selected_index < (s.menu_items.length : Int) →
    (pressTimes habitsDown k s).selected_index =
      (s.selected_index + k) % (s.menu_items.length : Int) := by
  induction k with
  | zero =>
      intro s h0 h1
      simp only [pressTimes, Nat.cast_zero, add_zero]
      exact (Int.emod_eq_of_lt h0 h1).symm
  | succ k ih =>
      intro s h0 h1
      have hlen : (0:Int) < (s.menu_items.length : Int) := by omega
      have hstep : pressTimes habitsDown (k + 1) s = pressTimes habitsDown k (habitsDown s) := rfl
      rw [hstep, habitsDown_eq]
      rw [ih _ (Int.emod_nonneg _ (by omega)) (Int.emod_lt_of_pos _ hlen)]
      show ((s.selected_index + 1) % (s.menu_items.length : Int) + (k : Int)) %
          (s.menu_items.length : Int) = _
      rw [Int.emod_add_emod]
      congr 1
      push_cast
      ring

/-- Iterated "down" presses on the habit checker in habit-selection mode. -/
theorem checker_down_iter (db : Db) (dates : List String) (k : Nat) :
    ∀ (s : CheckerState), s.habits ≠ [] → s.checkbox_mode = false →
    0 ≤ s.selected_habit → s.selected_habit < (s.habits.length : Int) →
    (pressTimes (checkerDown db dates) k s).selected_habit =
      (s.selected_habit + k) % (s.habits.length : Int) := by
  induction k with
  | zero =>
      intro s h hm h0 h1
      simp only [pressTimes, Nat.cast_zero, add_zero]
      exact (Int.emod_eq_of_lt h0 h1).symm
  | succ k ih =>
      intro s h hm h0 h1
      have hlen : (0:Int) < (s.habits.length : Int) := by
        have := List.length_pos.mpr h
        omega
      have hstep : pressTimes (checkerDown db dates) (k + 1) s =
          pressTimes (checkerDown db dates) k (checkerDown db dates s) := rfl
      rw [hstep, checkerDown_eq db dates s h hm]
      have hrec := ih
        { s with selected_habit := (s.selected_habit + 1) % (s.habits.length : Int) }
        h hm (Int.emod_nonneg _ (by omega)) (Int.emod_lt_of_pos _ hlen)
      rw [hrec]
      show ((s.selected_habit + 1) % (s.habits.length : Int) + (k : Int)) %
          (s.habits.length : Int) =
        (s.selected_habit + ((k + 1 : Nat) : Int)) % (s.habits.length : Int)
      rw [Int.emod_add_emod]
      congr 1
      push_cast
      ring

/-- Iterated "down" presses on the view-habits screen cycle through the
habit rows and the NEW HABIT button: the cursor is the start offset plus the
press count, modulo N+1 positions, shifted so the button sits at -1. -/
theorem view_down_iter (db : Db) (k : Nat) : ∀ (s : ViewState),
    s.show_delete_popup = false →
    -1 ≤ s.selected_index → s.selected_index < (s.habits.length : Int) →
    (pressTimes (viewDown db) k s).selected_index =
      ((s.selected_index + 1 + k) % ((s.habits.length : Int) + 1)) - 1 := by
  induction k with
  | zero =>
      intro s hp h0 h1
      simp only [pressTimes, Nat.cast_zero, add_zero]
      rw [Int.emod_eq_of_lt (by omega) (by omega)]
      omega
  | succ k ih =>
      intro s hp h0 h1
      have hstep : pressTimes (viewDown db) (k + 1) s =
          pressTimes (viewDown db) k (viewDown db s) := rfl
      rw [hstep, viewDown_eq db s hp]
      by_cases hc : (s.habits.length : Int) ≤ s.selected_index + 1
      · rw [if_pos hc]
        have hrec := ih { s with selected_index := (-1 : Int) } hp
          (by show (-1:Int) ≤ -1; omega) (by show (-1:Int) < (s.habits.length : Int); omega)
        rw [hrec]
        show ((-1 : Int) + 1 + (k : Int)) % ((s.habits.length : Int) + 1) - 1 =
          (s.selected_index + 1 + ((k + 1 : Nat) : Int)) % ((s.habits.length : Int) + 1) - 1
        have hsel : s.selected_index + 1 = (s.habits.length : Int) := by omega
        have hl : (-1 : Int) + 1 + (k : Int) = (k : Int) := by ring
        have hr : s.selected_index + 1 + ((k + 1 : Nat) : Int) =
            (k : Int) + ((s.habits.length : Int) + 1) * 1 := by push_cast; omega
        rw [hl, hr, Int.add_mul_emod_self_left]
      · rw [if_neg hc]
        have hrec := ih { s with selected_index := s.selected_index + 1 } hp
          (by show (-1:Int) ≤ s.selected_index + 1; omega)
          (by show s.selected_index + 1 < (s.habits.length : Int); omega)
        rw [hrec]
        show (s.selected_index + 1 + 1 + (k : Int)) % ((s.habits.length : Int) + 1) - 1 =
          (s.selected_index + 1 + ((k + 1 : Nat) : Int)) % ((s.habits.length : Int) + 1) - 1
        have he : s.selected_index + 1 + 1 + (k : Int) =
            s.selected_index + 1 + ((k + 1 : Nat) : Int) := by push_cast; ring
        rw [he]

/-- Claim C6, counterexample: on the view-habits screen with N = 1 habit and
the cursor on row 0, a single "down" press lands on the NEW HABIT button at
index -1, not back on index 0 as the modular-wraparound claim requires. -/
theorem C6_counterexample :
    (vsOne.handle_input db0 ⟨.down, true⟩).state.selected_index = -1 ∧
    ¬ (vsOne.handle_input db0 ⟨.down, true⟩).state.selected_index = 0 := by
  decide

/-- Claim C6, amended: the menu, legacy habits, and habit-checker screens
wrap their cursor modulo the item count as claimed (N downs from index 0
return to 0; one up from 0 lands on N-1). The view-habits screen instead
cycles through N+1 positions including the NEW HABIT button at index -1: N
downs from row 0 land on the button, N+1 downs return to row 0, and one up
from row 0 lands on the button. The settings screen clamps: its cursor
sticks at the last index under further downs and at 0 under up. -/
theorem C6_list_navigation :
    ((pressTimes menuDown 4 MenuState.init).selected_index = 0 ∧
     (menuUp MenuState.init).selected_index = 3) ∧
    (∀ s : HabitsState, s.selected_index = 0 →
      (pressTimes habitsDown s.menu_items.length s).selected_index = 0 ∧
      (habitsUp s).selected_index = (s.menu_items.length : Int) - 1) ∧
    (∀ (db : Db) (dates : List String) (s : CheckerState),
      s.habits ≠ [] → s.checkbox_mode = false → s.selected_habit = 0 →
      (pressTimes (checkerDown db dates) s.habits.length s).selected_habit = 0 ∧
      (checkerUp db dates s).selected_habit = (s.habits.length : Int) - 1) ∧
    (∀ (db : Db) (s : ViewState),
      s.habits ≠ [] → s.show_delete_popup = false → s.selected_index = 0 →
      (pressTimes (viewDown db) s.habits.length s).selected_index = -1 ∧
      (pressTimes (viewDown db) (s.habits.length + 1) s).selected_index = 0 ∧
      (viewUp db s).selected_index = -1) ∧
    ((pressTimes settingsDown 3 SettingsState.init).selected_index = 2 ∧
     (settingsDown { selected_index := 2 }).selected_index = 2 ∧
     (settingsUp SettingsState.init).selected_index = 0) := by
  refine ⟨by decide, ?_, ?_, ?_, by decide⟩
  · intro s h0
    have hlen : (0:Int) < (s.menu_items.length : Int) := by
      simp [HabitsState.menu_items]
    constructor
    · rw [habits_down_iter _ s (by omega) (by omega), h0]
      simp [Int.emod_self]
    · rw [habitsUp_eq, h0]
      show ((0:Int) - 1) % (s.menu_items.length : Int) = _
      rw [show ((0:Int) - 1) = -1 by ring, neg_one_emod _ hlen]
  · intro db dates s h hm h0
    have hlen : (0:Int) < (s.habits.length : Int) := by
      have := List.length_pos.mpr h
      omega
    constructor
    · rw [checker_down_iter db dates _ s h hm (by omega) (by omega), h0]
      simp [Int.emod_self]
    · rw [checkerUp_eq db dates s h hm, h0]
      show ((0:Int) - 1) % (s.habits.length : Int) = _
      rw [show ((0:Int) - 1) = -1 by ring, neg_one_emod _ hlen]
  · intro db s h hp h0
    have hlen : (0:Int) < (s.habits.length : Int) := by
      have := List.length_pos.mpr h
      omega
    refine ⟨?_, ?_, ?_⟩
    · rw [view_down_iter db _ s hp (by omega) (by omega), h0]
      have : ((0:Int) + 1 + (s.habits.length : Int)) =
          0 + ((s.habits.length : Int) + 1) * 1 := by ring
      rw [this, Int.add_mul_emod_self_left]
      simp
    · rw [view_down_iter db _ s hp (by omega) (by omega), h0]
      push_cast
      have h1 : (1:Int) + ((s.habits.length : Int) + 1) =
          1 + ((s.habits.length : Int) + 1) * 1 := by ring
      rw [h1, Int.add_mul_emod_self_left]
      rw [Int.emod_eq_of_lt (by omega) (by omega)]
      omega
    · rw [viewUp_eq db s hp, h0]
      norm_num

/-- Witness for C6 at concrete one-element screens. -/
theorem C6_witness :
    (pressTimes habitsDown 5 HabitsState.init).selected_index = 0 ∧
    (pressTimes (checkerDown db0 []) 1 csOne).selected_habit = 0 ∧
    (checkerUp db0 [] csOne).selected_habit = 0 ∧
    (pressTimes (viewDown db0) 1 vsOne).selected_index = -1 ∧
    (pressTimes (viewDown db0) 2 vsOne).selected_index = 0 ∧
    (viewUp db0 vsOne).selected_index = -1 := by
  have h := C6_list_navigation
  have hhab := h.2.1 HabitsState.init rfl
  have hchk := h.2.2.1 db0 [] csOne (by decide) rfl rfl
  have hview := h.2.2.2.1 db0 vsOne (by decide) rfl rfl
  exact ⟨hhab.1, hchk.1, by rw [hchk.2]; rfl, hview.1, hview.2.1, hview.2.2⟩

/-- Every menu item name, routed through the "habits" rename, is a registry
key. -/
theorem menu_item_target (x : String) (hx : x ∈ MenuState.itemNames) :
    (if x = "habits" then "habit_checker" else x) ∈ registryNames := by
  fin_cases hx <;> decide

/-- Any transition the home screen returns is a registry key. -/
theorem home_result_mem (s : HomeState) (ev : InputEvent) (n : String)
    (h : (s.handle_input ev).2 = some n) : n ∈ registryNames := by
  unfold HomeState.handle_input at h
  repeat' split at h
  all_goals simp_all
  all_goals subst h
  all_goals decide

/-- Any transition the menu screen returns is a registry key. -/
theorem menu_result_mem (s : MenuState) (ev : InputEvent) (n : String)
    (h : (s.handle_input ev).2 = some n) : n ∈ registryNames := by
  rcases hg : pyGet? MenuState.itemNames s.selected_index with _ | x
  · unfold MenuState.handle_input at h
    rw [hg] at h
    repeat' split at h
    all_goals simp_all
    all_goals subst h
    all_goals decide
  · have hx := pyGet?_mem hg
    unfold MenuState.handle_input at h
    rw [hg] at h
    repeat' split at h
    all_goals simp_all
    all_goals try subst h
    all_goals try decide
    all_goals fin_cases hx
    all_goals simp_all
    all_goals decide

/-- Any transition the legacy habits screen returns is a registry key. -/
theorem habits_result_mem (s : HabitsState) (ev : InputEvent) (n : String)
    (h : (s.handle_input ev).2 = some n) : n ∈ registryNames := by
  unfold HabitsState.handle_input at h
  repeat' split at h
  all_goals simp_all
  all_goals subst h
  all_goals decide

/-- Any transition the stats screen returns is a registry key. -/
theorem stats_result_mem (s : StatsState) (ev : InputEvent) (n : String)
    (h : (s.handle_input ev).2 = some n) : n ∈ registryNames := by
  unfold StatsState.handle_input at h
  repeat' split at h
  all_goals simp_all
  all_goals subst h
  all_goals decide

/-- Any transition the settings screen returns is a registry key. -/
theorem settings_result_mem (s : SettingsState) (ev : InputEvent) (n : String)
    (h : (s.handle_input ev).2 = some n) : n ∈ registryNames := by
  unfold SettingsState.handle_input at h
  repeat' split at h
  all_goals simp_all
  all_goals subst h
  all_goals decide

/-- Any transition the habit form screen returns is a registry key. -/
theorem form_result_mem (s : FormState) (ev : InputEvent) (n : String)
    (h : (s.handle_input ev).2 = some n) : n ∈ registryNames := by
  unfold FormState.handle_input at h
  simp only [] at h
  rcases hti : (s.text_input.handle_input ev).2 with _ | r
  all_goals rw [hti] at h
  all_goals repeat' split at h
  all_goals simp_all
  all_goals subst h
  all_goals decide

/-- Any transition the view-habits screen returns is a registry key. -/
theorem view_result_mem (s : ViewState) (db : Db) (ev : InputEvent) (n : String)
    (h : (s.handle_input db ev).result = some n) : n ∈ registryNames := by
  unfold ViewState.handle_input at h
  repeat' split at h
  all_goals simp_all
  all_goals subst h
  all_goals decide

/-- Any transition the edit-habit screen returns is a registry key. -/
theorem edit_result_mem (s : EditState) (db : Db) (ev : InputEvent) (n : String)
    (h : (s.handle_input db ev).result = some n) : n ∈ registryNames := by
  obtain ⟨t, p⟩ := ev
  cases p
  · cases h
  · cases t
    all_goals by_cases hen : s.editing_name = true
    all_goals simp only [EditState.handle_input, hen, if_true, if_false,
      eq_self_iff_true, ite_true, ite_false, Bool.not_true, Bool.false_eq_true,
      Bool.not_false, Bool.true_eq_false] at h
    all_goals repeat' split at h
    all_goals try cases h
    all_goals decide

/-- Any transition the habit checker returns is a registry key. -/
theorem checker_result_mem (s : CheckerState) (db : Db) (dates : List String)
    (ev : InputEvent) (n : String)
    (h : (s.handle_input db dates ev).2.2 = some n) : n ∈ registryNames := by
  unfold CheckerState.handle_input at h
  repeat' split at h
  all_goals simp_all
  all_goals subst h
  all_goals decide

/-- Any transition the update screen returns is a registry key. -/
theorem updateScr_result_mem (s : UpdateState) (ev : InputEvent) (n : String)
    (h : (s.handle_input ev).2 = some n) : n ∈ registryNames := by
  unfold UpdateState.handle_input at h
  repeat' split at h
  all_goals simp_all
  all_goals subst h
  all_goals decide

/-- Any transition the about screen returns is a registry key. -/
theorem about_result_mem (s : AboutState) (ev : InputEvent) (n : String)
    (h : (s.handle_input ev).2 = some n) : n ∈ registryNames := by
  unfold AboutState.handle_input at h
  repeat' split at h
  all_goals simp_all
  all_goals subst h
  all_goals decide

/-- The registered popup (targets "view_habits"/"view_habits") only returns
registry keys. -/
theorem popup_result_mem (s : PopupState) (ev : InputEvent) (n : String)
    (hok : s.on_ok_screen = "view_habits") (hcan : s.on_cancel_screen = "view_habits")
    (h : (s.handle_input ev).2 = some n) : n ∈ registryNames := by
  unfold PopupState.handle_input at h
  repeat' split at h
  all_goals cases h
  all_goals first
    | (rw [hok]; decide)
    | (rw [hcan]; decide)

/-- Claim C8: every screen name any registered screen's handle_input can
return — over all internal states and input events, with the popup's targets
as constructed in main — is a key of the startup registry (home, menu,
habits, stats, settings, habit_form, habit_form_edit, view_habits,
edit_habit, habit_checker, popup_delete, update, about). -/
theorem C8_transitions_registered (sc : ScreenState) (db : Db) (ho : Option Habit)
    (dates : List String) (ev : InputEvent) (n : String)
    (hpop : PopupTargets sc)
    (hres : (dispatchToScreen sc db ho dates ev).result = some n) :
    n ∈ registryNames := by
  cases sc with
  | home s => exact home_result_mem s ev n hres
  | menu s => exact menu_result_mem s ev n hres
  | habits s => exact habits_result_mem s ev n hres
  | stats s => exact stats_result_mem s ev n hres
  | settings s => exact settings_result_mem s ev n hres
  | habitForm s => exact form_result_mem s ev n hres
  | viewHabits s => exact view_result_mem s db ev n hres
  | editHabit s => exact edit_result_mem s db ev n hres
  | habitChecker s => exact checker_result_mem s db dates ev n hres
  | popup s => exact popup_result_mem s ev n hpop.1 hpop.2 hres
  | updateScr s => exact updateScr_result_mem s ev n hres
  | about s => exact about_result_mem s ev n hres

/-- Witness for C8: a LEFT press on the menu returns "home", which is a
registry key. -/
theorem C8_witness : "home" ∈ registryNames :=
  C8_transitions_registered (.menu MenuState.init) db0 none [] ⟨.left, true⟩ "home"
    trivial rfl

/-- Under its blink invariant, a zero-delta tick leaves the text input
unchanged. -/
theorem textInput_update_zero (s : TextInput) (h : s.Inv) :
    TextInput.update 0 s = s := by
  unfold TextInput.update
  split
  · rfl
  · rw [if_neg (by rw [add_zero]; exact not_le.mpr h)]
    rw [add_zero]

/-- Under its timer invariants, a zero-delta tick leaves the speech bubble
unchanged. -/
theorem bubble_update_zero (s : SpeechBubble) (h : s.Inv) :
    SpeechBubble.update 0 s = s := by
  obtain ⟨mode, cf, ft, tx, so, st⟩ := s
  obtain ⟨h1, h2⟩ := h
  cases mode
  · rfl
  · simp only [SpeechBubble.update, add_zero]
    rw [if_neg (not_le.mpr h1)]
  · simp only [SpeechBubble.update, add_zero]
    split
    · rw [if_neg (not_le.mpr h2)]
    · rfl
  · simp only [SpeechBubble.update, add_zero]
    rw [if_neg (not_le.mpr h1)]

/-- Under its timer invariants, a zero-delta update leaves the home screen
unchanged. -/
theorem home_update_zero (s : HomeState) (h : s.Inv) :
    HomeState.update 0 s = s := by
  obtain ⟨cf, ft, fi, bub⟩ := s
  obtain ⟨h1, h2⟩ := h
  simp only [HomeState.update, add_zero]
  rw [if_neg (not_le.mpr h1)]
  rw [bubble_update_zero bub h2]

/-- Under its blink invariant, a zero-delta update leaves the habit form
unchanged. -/
theorem form_update_zero (s : FormState) (h : s.Inv) :
    FormState.update 0 s = s := by
  unfold FormState.update
  rw [textInput_update_zero s.text_input h]

/-- `ViewHabitsScreen.update` never raises: every fallible list access is
guarded. -/
theorem view_update?_isSome (delta : Rat) (s : ViewState) :
    (ViewState.update? delta s).isSome := by
  unfold ViewState.update?
  split
  · rename_i hguard
    rcases hg : pyGet? s.habits s.selected_index with _ | habit
    · exact absurd (pyGet?_isSome_of_lt s.habits s.selected_index hguard.1 hguard.2)
        (by rw [hg]; decide)
    · simp only [hg]
      repeat' split
      all_goals rfl
  · rfl

/-- `HabitCheckerScreen.update` never raises for a non-negative habit
cursor. -/
theorem checker_update?_isSome (delta : Rat) (s : CheckerState)
    (h0 : 0 ≤ s.selected_habit) :
    (CheckerState.update? delta s).isSome := by
  unfold CheckerState.update?
  split
  · rename_i hguard
    rcases hg : pyGet? s.habits s.selected_habit with _ | habit
    · exact absurd (pyGet?_isSome_of_lt s.habits s.selected_habit h0 hguard.2)
        (by rw [hg]; decide)
    · simp only [hg]
      repeat' split
      all_goals rfl
  · rfl

/-- An enum member's index is in range and identifies its element. -/
theorem mem_enum_fact {α : Type} {l : List α} {p : Nat × α} (hp : p ∈ l.enum) :
    p.1 < l.length ∧ l.get? p.1 = some p.2 := by
  have h := List.mem_enum_iff_getElem?.1 hp
  rw [List.get?_eq_getElem?]
  exact ⟨(List.getElem?_eq_some_iff.1 h).1, h⟩

/-- When no row is simultaneously selected and long, the rendered name list
of the view-habits screen ignores the scroll state. -/
theorem view_names_scroll_eq (s sNew : ViewState)
    (hh : sNew.habits = s.habits) (hsel : sNew.selected_index = s.selected_index)
    (hcond : ∀ p ∈ s.habits.enum, ¬(((p.1 : Int) = s.selected_index) ∧ 8 < p.2.name.length)) :
    sNew.displayed_names = s.displayed_names := by
  unfold ViewState.displayed_names
  rw [hh, hsel]
  apply List.map_congr_left
  intro p hp
  by_cases hlen : 8 < p.2.name.length
  · have hnsel : ¬((p.1 : Int) = s.selected_index) := fun hs => hcond p hp ⟨hs, hlen⟩
    simp [hlen, hnsel]
  · simp [hlen]

/-- When no row is simultaneously selected (in habit-selection mode) and
long, the rendered name list of the habit checker ignores the scroll
state. -/
theorem checker_names_scroll_eq (s sNew : CheckerState)
    (hh : sNew.habits = s.habits) (hsel : sNew.selected_habit = s.selected_habit)
    (hm : sNew.checkbox_mode = s.checkbox_mode)
    (hcond : ∀ p ∈ s.habits.enum,
      ¬((((p.1 : Int) = s.selected_habit) ∧ s.checkbox_mode = false) ∧ 8 < p.2.name.length)) :
    sNew.displayed_names = s.displayed_names := by
  unfold CheckerState.displayed_names
  rw [hh, hsel, hm]
  apply List.map_congr_left
  intro p hp
  by_cases hlen : 8 < p.2.name.length
  · by_cases hmode : s.checkbox_mode
    · simp [hlen, hmode]
    · have hnsel : ¬((p.1 : Int) = s.selected_habit) := fun hs =>
        hcond p hp ⟨⟨hs, by simpa using hmode⟩, hlen⟩
      simp [hlen, hnsel]
  · simp [hlen]

/-- Under its timer invariant, a zero-delta update leaves the view-habits
screen's visible state — everything but the internal scroll bookkeeping —
unchanged. -/
theorem view_update_zero_visible (s : ViewState) (h : s.Inv) :
    (ViewState.update 0 s).habits = s.habits ∧
    (ViewState.update 0 s).selected_index = s.selected_index ∧
    (ViewState.update 0 s).show_delete_popup = s.show_delete_popup ∧
    (ViewState.update 0 s).popup_selected_button = s.popup_selected_button ∧
    (ViewState.update 0 s).displayed_names = s.displayed_names := by
  unfold ViewState.update ViewState.update?
  split
  · rename_i hguard
    rcases hg : pyGet? s.habits s.selected_index with _ | habit
    · simp only [hg]
      exact ⟨rfl, rfl, rfl, rfl, rfl⟩
    · simp only [hg]
      split
      · rw [if_neg (by rw [add_zero]; exact not_le.mpr h)]
        rw [add_zero]
        exact ⟨rfl, rfl, rfl, rfl, rfl⟩
      · rename_i hshort
        refine ⟨rfl, rfl, rfl, rfl, ?_⟩
        apply view_names_scroll_eq
        · rfl
        · rfl
        · intro p hp hbad
          obtain ⟨hplt, hpget⟩ := mem_enum_fact hp
          have hidx : p.1 = s.selected_index.toNat := by omega
          rw [pyGet?_nonneg s.habits s.selected_index hguard.1, ← hidx, hpget] at hg
          cases hg
          exact hshort hbad.2
  · rename_i hguard
    refine ⟨rfl, rfl, rfl, rfl, ?_⟩
    apply view_names_scroll_eq
    · rfl
    · rfl
    · intro p hp hbad
      obtain ⟨hplt, _⟩ := mem_enum_fact hp
      rw [not_and_or] at hguard
      push_neg at hguard
      omega

/-- Under its timer invariant, a zero-delta update leaves the habit
checker's visible state unchanged. -/
theorem checker_update_zero_visible (s : CheckerState) (h : s.Inv) :
    (CheckerState.update 0 s).habits = s.habits ∧
    (CheckerState.update 0 s).selected_habit = s.selected_habit ∧
    (CheckerState.update 0 s).selected_day = s.selected_day ∧
    (CheckerState.update 0 s).checkbox_mode = s.checkbox_mode ∧
    (CheckerState.update 0 s).displayed_names = s.displayed_names := by
  unfold CheckerState.update CheckerState.update?
  split
  · rename_i hguard
    rcases hg : pyGet? s.habits s.selected_habit with _ | habit
    · simp only [hg]
      exact ⟨rfl, rfl, rfl, rfl, rfl⟩
    · simp only [hg]
      split
      · rw [if_neg (by rw [add_zero]; exact not_le.mpr h.1)]
        rw [add_zero]
        exact ⟨rfl, rfl, rfl, rfl, rfl⟩
      · rename_i hshort
        refine ⟨rfl, rfl, rfl, rfl, ?_⟩
        apply checker_names_scroll_eq
        · rfl
        · rfl
        · rfl
        · intro p hp hbad
          obtain ⟨hplt, hpget⟩ := mem_enum_fact hp
          have hidx : p.1 = s.selected_habit.toNat := by
            have := hbad.1.1
            omega
          rw [pyGet?_nonneg s.habits s.selected_habit h.2, ← hidx, hpget] at hg
          cases hg
          exact hshort hbad.2
  · rename_i hguard
    refine ⟨rfl, rfl, rfl, rfl, ?_⟩
    apply checker_names_scroll_eq
    · rfl
    · rfl
    · rfl
    · intro p hp hbad
      obtain ⟨hplt, _⟩ := mem_enum_fact hp
      rw [not_and_or] at hguard
      rcases hguard with hmode | hlen
      · have hmode2 : s.checkbox_mode = true := by
          cases hcm : s.checkbox_mode
          · rw [hcm] at hmode
            simp at hmode
          · rfl
        rw [hbad.1.2] at hmode2
        cases hmode2
      · push_neg at hlen
        have := hbad.1.1
        omega

/-- Under its timer invariants, a zero-delta update leaves the edit
screen's visible state — everything but the scroll bookkeeping, including
the displayed name text — unchanged. -/
theorem edit_update_zero_visible (s : EditState) (h : s.Inv) :
    (EditState.update 0 s).habit_id = s.habit_id ∧
    (EditState.update 0 s).text_input = s.text_input ∧
    (EditState.update 0 s).name = s.name ∧
    (EditState.update 0 s).freq_number = s.freq_number ∧
    (EditState.update 0 s).freq_period = s.freq_period ∧
    (EditState.update 0 s).points = s.points ∧
    (EditState.update 0 s).is_good = s.is_good ∧
    (EditState.update 0 s).active = s.active ∧
    (EditState.update 0 s).reminder = s.reminder ∧
    (EditState.update 0 s).selected_field = s.selected_field ∧
    (EditState.update 0 s).editing_name = s.editing_name ∧
    (EditState.update 0 s).editing_freq = s.editing_freq ∧
    (EditState.update 0 s).freq_edit_stage = s.freq_edit_stage ∧
    (EditState.update 0 s).editing_points = s.editing_points ∧
    (EditState.update 0 s).selected_button = s.selected_button ∧
    (EditState.update 0 s).get_display_name = s.get_display_name := by
  have hti : (if s.editing_name then
      { s with text_input := s.text_input.update 0 } else s) = s := by
    split
    · rw [textInput_update_zero s.text_input h.2]
    · rfl
  unfold EditState.update
  rw [hti]
  simp only [add_zero]
  split
  · rw [if_neg (not_le.mpr h.1)]
    exact ⟨rfl, rfl, rfl, rfl, rfl, rfl, rfl, rfl, rfl, rfl, rfl, rfl, rfl, rfl,
      rfl, rfl⟩
  · rename_i hcond
    refine ⟨rfl, rfl, rfl, rfl, rfl, rfl, rfl, rfl, rfl, rfl, rfl, rfl, rfl, rfl,
      rfl, ?_⟩
    unfold EditState.get_display_name
    by_cases hlen : s.name.length ≤ 6
    · simp [hlen]
    · have hfalse : ¬(s.selected_field = 0 ∧ s.editing_name = false) := by
        intro hx
        refine hcond ⟨hx.1, ?_, by omega⟩
        rw [hx.2]
        rfl
      simp [hlen, hfalse]

/-! The timer/cursor invariants hold for freshly constructed screens and
are preserved by every handler, update, and reload hook, so they
overapproximate the states a run can reach. -/

/-- The blink invariant holds initially. -/
theorem textInput_inv_init (n : Nat) : (TextInput.init n).Inv := by
  norm_num [TextInput.Inv, TextInput.init]

/-- The widget's input handler never touches the blink timer. -/
theorem textInput_inv_handle (s : TextInput) (ev : InputEvent) (h : s.Inv) :
    ((s.handle_input ev).1).Inv := by
  unfold TextInput.handle_input
  repeat' split
  all_goals exact h

/-- The widget's tick keeps the blink timer below its threshold. -/
theorem textInput_inv_update (delta : Rat) (s : TextInput) (h : s.Inv) :
    (TextInput.update delta s).Inv := by
  unfold TextInput.update TextInput.Inv at *
  simp only []
  split
  · exact h
  · split
    · norm_num
    · rename_i hlt
      exact not_le.mp hlt

/-- The bubble invariants hold initially and after show/hide/toggle. -/
theorem bubble_inv_toggle (t : String) (s : SpeechBubble) (h : s.Inv) :
    (s.toggle t).Inv := by
  unfold SpeechBubble.toggle SpeechBubble.show_bubble SpeechBubble.hide
    SpeechBubble.Inv at *
  repeat' split
  all_goals simp_all

/-- The bubble's tick keeps both timers below their thresholds. -/
theorem bubble_inv_update (delta : Rat) (s : SpeechBubble) (h : s.Inv) :
    (SpeechBubble.update delta s).Inv := by
  obtain ⟨h1, h2⟩ := h
  unfold SpeechBubble.update SpeechBubble.Inv at *
  simp only []
  split
  · split
    · split
      · exact ⟨by norm_num, h2⟩
      · exact ⟨by norm_num, h2⟩
    · rename_i hlt
      exact ⟨not_le.mp hlt, h2⟩
  · split
    · split
      · exact ⟨by norm_num, h2⟩
      · exact ⟨by norm_num, h2⟩
    · rename_i hlt
      exact ⟨not_le.mp hlt, h2⟩
  · split
    · split
      · exact ⟨h1, by norm_num⟩
      · rename_i hlt
        exact ⟨h1, not_le.mp hlt⟩
    · exact ⟨h1, h2⟩
  · exact ⟨h1, h2⟩

/-- The home screen's invariant holds initially. -/
theorem home_inv_init : HomeState.init.Inv := by
  norm_num [HomeState.Inv, HomeState.init, SpeechBubble.Inv, SpeechBubble.init]

/-- The home screen's handler preserves its invariant. -/
theorem home_inv_handle (s : HomeState) (ev : InputEvent) (h : s.Inv) :
    ((s.handle_input ev).1).Inv := by
  unfold HomeState.handle_input
  repeat' split
  all_goals try exact h
  all_goals exact ⟨h.1, bubble_inv_toggle "Hello World" s.speech_bubble h.2⟩

/-- The home screen's update preserves its invariant. -/
theorem home_inv_update (delta : Rat) (s : HomeState) (h : s.Inv) :
    (HomeState.update delta s).Inv := by
  obtain ⟨h1, h2⟩ := h
  unfold HomeState.update
  simp only []
  split
  · exact ⟨by norm_num, bubble_inv_update delta _ h2⟩
  · rename_i hlt
    exact ⟨not_le.mp hlt, bubble_inv_update delta _ h2⟩

/-- The view-habits invariant holds initially. -/
theorem view_inv_init (db : Db) : (ViewState.init db).Inv := by
  norm_num [ViewState.Inv, ViewState.init]

/-- The view-habits handler never touches the scroll timer. -/
theorem view_inv_handle (s : ViewState) (db : Db) (ev : InputEvent) (h : s.Inv) :
    ((s.handle_input db ev).state).Inv := by
  unfold ViewState.handle_input
  simp only []
  repeat' split
  all_goals exact h

/-- The view-habits reload hook never touches the scroll timer. -/
theorem view_inv_reload (s : ViewState) (db : Db) (h : s.Inv) :
    ((s.reload_habits db)).Inv := by
  unfold ViewState.reload_habits
  simp only []
  repeat' split
  all_goals exact h

/-- The view-habits update keeps the scroll timer below its threshold. -/
theorem view_inv_update (delta : Rat) (s : ViewState) (h : s.Inv) :
    (ViewState.update delta s).Inv := by
  unfold ViewState.update ViewState.update? ViewState.Inv at *
  simp only []
  repeat' split
  all_goals try exact h
  all_goals try norm_num
  all_goals rename_i hlt
  all_goals exact not_le.mp hlt

/-- The checker invariant holds initially. -/
theorem checker_inv_init (db : Db) (dates : List String) :
    (CheckerState.init db dates).Inv := by
  norm_num [CheckerState.Inv, CheckerState.init]

/-- The checker handler preserves its invariant (timer untouched, habit
cursor non-negative since it only moves modulo the habit count). -/
theorem checker_inv_handle (s : CheckerState) (db : Db) (dates : List String)
    (ev : InputEvent) (h : s.Inv) : ((s.handle_input db dates ev).1).Inv := by
  obtain ⟨h1, h2⟩ := h
  unfold CheckerState.handle_input
  simp only []
  repeat' split
  all_goals try exact ⟨h1, h2⟩
  all_goals refine ⟨h1, Int.emod_nonneg _ ?_⟩
  all_goals simp_all [List.isEmpty_iff, Int.natCast_eq_zero, List.length_eq_zero]

/-- The checker reload hook preserves its invariant. -/
theorem checker_inv_reload (s : CheckerState) (db : Db) (dates : List String)
    (h : s.Inv) : (s.reload_habits db dates).Inv := by
  unfold CheckerState.reload_habits
  simp only []
  split
  · exact ⟨h.1, by norm_num⟩
  · exact h

/-- The checker update keeps its invariant. -/
theorem checker_inv_update (delta : Rat) (s : CheckerState) (h : s.Inv) :
    (CheckerState.update delta s).Inv := by
  obtain ⟨h1, h2⟩ := h
  unfold CheckerState.update CheckerState.update?
  simp only []
  repeat' split
  all_goals refine ⟨?_, h2⟩
  all_goals try exact h1
  all_goals try norm_num
  all_goals rename_i hlt
  all_goals exact not_le.mp hlt

/-- The edit screen's invariant holds initially. -/
theorem edit_inv_init : EditState.init.Inv := by
  norm_num [EditState.Inv, EditState.init, TextInput.Inv, TextInput.init]

/-- The edit screen's reload hook preserves its invariant (it touches
neither the scroll timer nor the blink timer). -/
theorem edit_inv_reload (V : Option Habit) (s : EditState) (h : s.Inv) :
    (s.load_habit_data V).Inv := by
  unfold EditState.load_habit_data
  cases V
  all_goals exact ⟨h.1, h.2⟩

/-- The edit screen's handler preserves its invariant. -/
theorem edit_inv_handle (s : EditState) (db : Db) (ev : InputEvent) (h : s.Inv) :
    ((s.handle_input db ev).state).Inv := by
  obtain ⟨h1, h2⟩ := h
  have hti := textInput_inv_handle s.text_input ev h2
  obtain ⟨t, p⟩ := ev
  cases p
  · exact ⟨h1, h2⟩
  · cases t
    all_goals by_cases hen : s.editing_name = true
    all_goals simp only [EditState.handle_input, hen, if_true, if_false,
      eq_self_iff_true, ite_true, ite_false, Bool.not_true, Bool.false_eq_true,
      Bool.not_false, Bool.true_eq_false]
    all_goals repeat' split
    all_goals try exact ⟨h1, h2⟩
    all_goals try exact ⟨h1, hti⟩
    all_goals unfold EditState.save_habit
    all_goals repeat' split
    all_goals exact ⟨h1, h2⟩

/-- The edit screen's update keeps its invariant. -/
theorem edit_inv_update (delta : Rat) (s : EditState) (h : s.Inv) :
    (EditState.update delta s).Inv := by
  obtain ⟨h1, h2⟩ := h
  have hti := textInput_inv_update delta s.text_input h2
  unfold EditState.update
  simp only []
  constructor
  · repeat' split
    all_goals try norm_num
    all_goals rename_i hlt
    all_goals exact not_le.mp hlt
  · repeat' split
    all_goals try exact h2
    all_goals exact hti

/-- The form screen's invariant holds initially and is preserved. -/
theorem form_inv_init (b : Bool) : (FormState.init b).Inv := by
  norm_num [FormState.Inv, FormState.init, TextInput.Inv, TextInput.init]

/-- The form screen's handler preserves its invariant. -/
theorem form_inv_handle (s : FormState) (ev : InputEvent) (h : s.Inv) :
    ((s.handle_input ev).1).Inv := by
  have hti := textInput_inv_handle s.text_input ev h
  unfold FormState.handle_input
  simp only []
  repeat' split
  all_goals first | exact h | exact hti

/-- The form screen's update preserves its invariant. -/
theorem form_inv_update (delta : Rat) (s : FormState) (h : s.Inv) :
    (FormState.update delta s).Inv :=
  textInput_inv_update delta s.text_input h

/-- Claim C7: for every screen, in every state an actual run can put it in
(captured by the timer/cursor invariants, which hold initially and are
preserved), `update(0.0)` neither raises — the guarded list accesses of the
view and checker updates always succeed — nor changes any rendered-visible
state that depends on elapsed time: screens with pure timer logic are left
exactly unchanged, the update screen's one-shot git check does not depend on
the delta at all, and the view/checker/edit screens keep every visible field
and every rendered name text, adjusting only internal scroll bookkeeping
that is not visible in their current state. -/
theorem C7_zero_delta_update :
    (∀ s : HomeState, s.Inv → HomeState.update 0 s = s) ∧
    (∀ s : MenuState, MenuState.update 0 s = s) ∧
    (∀ s : HabitsState, HabitsState.update 0 s = s) ∧
    (∀ s : StatsState, StatsState.update 0 s = s) ∧
    (∀ s : SettingsState, SettingsState.update 0 s = s) ∧
    (∀ s : PopupState, PopupState.update 0 s = s) ∧
    (∀ s : AboutState, AboutState.update 0 s = s) ∧
    (∀ (d1 d2 : Rat) (s : UpdateState), UpdateState.update d1 s = UpdateState.update d2 s) ∧
    (∀ s : FormState, s.Inv → FormState.update 0 s = s) ∧
    (∀ (delta : Rat) (s : ViewState), (ViewState.update? delta s).isSome) ∧
    (∀ (delta : Rat) (s : CheckerState), 0 ≤ s.selected_habit →
      (CheckerState.update? delta s).isSome) ∧
    (∀ s : ViewState, s.Inv →
      (ViewState.update 0 s).habits = s.habits ∧
      (ViewState.update 0 s).selected_index = s.selected_index ∧
      (ViewState.update 0 s).show_delete_popup = s.show_delete_popup ∧
      (ViewState.update 0 s).popup_selected_button = s.popup_selected_button ∧
      (ViewState.update 0 s).displayed_names = s.displayed_names) ∧
    (∀ s : CheckerState, s.Inv →
      (CheckerState.update 0 s).habits = s.habits ∧
      (CheckerState.update 0 s).selected_habit = s.selected_habit ∧
      (CheckerState.update 0 s).selected_day = s.selected_day ∧
      (CheckerState.update 0 s).checkbox_mode = s.checkbox_mode ∧
      (CheckerState.update 0 s).displayed_names = s.displayed_names) ∧
    (∀ s : EditState, s.Inv →
      (EditState.update 0 s).name = s.name ∧
      (EditState.update 0 s).selected_field = s.selected_field ∧
      (EditState.update 0 s).editing_name = s.editing_name ∧
      (EditState.update 0 s).selected_button = s.selected_button ∧
      (EditState.update 0 s).text_input = s.text_input ∧
      (EditState.update 0 s).get_display_name = s.get_display_name) :=
  ⟨home_update_zero, fun _ => rfl, fun _ => rfl, fun _ => rfl, fun _ => rfl,
   fun _ => rfl, fun _ => rfl, fun _ _ _ => rfl, form_update_zero,
   view_update?_isSome, checker_update?_isSome,
   view_update_zero_visible, checker_update_zero_visible,
   fun s h =>
     have he := edit_update_zero_visible s h
     ⟨he.2.2.1, he.2.2.2.2.2.2.2.2.2.1, he.2.2.2.2.2.2.2.2.2.2.1,
      he.2.2.2.2.2.2.2.2.2.2.2.2.2.2.1, he.2.1,
      he.2.2.2.2.2.2.2.2.2.2.2.2.2.2.2⟩⟩

/-- Witness for C7 at concrete screen states (fresh screens and a state
with leftover scroll offset). -/
theorem C7_witness :
    HomeState.update 0 HomeState.init = HomeState.init ∧
    FormState.update 0 (FormState.init false) = FormState.init false ∧
    (ViewState.update? 0 vsScrolled).isSome ∧
    (CheckerState.update? (1/20) csOne).isSome ∧
    (ViewState.update 0 vsScrolled).displayed_names = vsScrolled.displayed_names ∧
    (CheckerState.update 0 csOne).displayed_names = csOne.displayed_names ∧
    (EditState.update 0 edFresh).get_display_name = edFresh.get_display_name := by
  obtain ⟨hhome, _, _, _, _, _, _, _, hform, hview?, hchk?, hview, hchk, hedit⟩ :=
    C7_zero_delta_update
  refine ⟨hhome HomeState.init
            (by norm_num [HomeState.Inv, HomeState.init, SpeechBubble.Inv, SpeechBubble.init]),
          hform (FormState.init false)
            (by norm_num [FormState.Inv, FormState.init, TextInput.Inv, TextInput.init]),
          hview? 0 vsScrolled,
          hchk? (1/20) csOne (by norm_num [csOne]),
          (hview vsScrolled (by norm_num [ViewState.Inv, vsScrolled])).2.2.2.2,
          (hchk csOne (by norm_num [CheckerState.Inv, csOne])).2.2.2.2,
          (hedit edFresh
            (by norm_num [EditState.Inv, edFresh, EditState.init, TextInput.Inv,
              TextInput.init])).2.2.2.2.2⟩

end HabitTracker
